import Mathlib

set_option autoImplicit false

/- Shallow embedding of the new-user waterfall audience pipeline:
`generate_new_user_waterfall.py` together with the completion-check and
set-difference helpers it imports from `push_csv_queries.py`.

Database access (`execute_query`) is modelled by passing the response of each
SQL statement as a function argument: a bulk completion query is a
`List String → Except String (List String)` taking the id list bound into the
statement and returning either the user_id column of the result set or the
message of the exception `execute_query` raised; the four enrichment queries
of `get_top_target_shoe_for_users` analogously return `ShoeRow` rows.

Python dicts keyed by user id are modelled as association lists built with
last-write-wins insertion (`dinsert`), matching dict-assignment semantics;
dict comprehensions whose value is a function of the key are modelled as
`List.map` over the key list (duplicate keys collapse to identical pairs, so
key-set and lookup behaviour agree with the Python dict).  Python sets enter
only through membership tests, where a plain list is membership-equivalent.

Where a claim observes a side effect (which id lists were sent to storage),
the embedding additionally returns that trace: `CompletionResult.queries`
records the argument of each issued `execute_query` call, and
`TargetShoeResult` records the id list each fallback query was issued with
(`[]` when the fallback was skipped). -/

/-- One row of the base-audience query: the user record threaded through the
waterfall.  `new_user_level`, `top_target_shoe` and `target_variantID` are the
keys the extraction steps assign (absent, i.e. `none`, until assigned). -/
structure User where
  user_id : String
  username : String := ""
  first_name : String := ""
  user_size : String := ""
  new_user_level : Option Nat := none
  top_target_shoe : Option String := none
  target_variantID : Option String := none
  deriving DecidableEq, Repr

/-- One row returned by an enrichment query of
`get_top_target_shoe_for_users`. -/
structure ShoeRow where
  user_id : String
  product_variant_id : String
  product_name : String
  source : String := ""
  deriving DecidableEq, Repr

/-- Response of `execute_query` for a bulk completion statement: the
user_id column of the result set, or the raised exception's message. -/
abbrev IdQuery := List String → Except String (List String)

/-- Response of `execute_query` for an enrichment statement. -/
abbrev ShoeQuery := List String → Except String (List ShoeRow)

/-- Result of one completion-check evaluator: the Python dict
`{user_id: bool}` as an association list, plus the instrumentation trace of
id lists sent to storage (one entry per issued `execute_query` call). -/
structure CompletionResult where
  completion_map : List (String × Bool)
  queries : List (List String)
  deriving DecidableEq, Repr

/-- Embeds `get_new_users_in_window` (push_csv_queries.py, lines 989-1044).
The SQL text and its `min_hours`/`max_days` interpolation are
collaborator-side; the argument is the `execute_query` response for that
statement.  On success the rows are returned as-is; on an exception the
`except` handler logs and returns the empty list. -/
def get_new_users_in_window (query_result : Except String (List User)) : List User :=
  match query_result with
  | .ok result => result
  | .error _ => []

/-- Embeds `check_users_closet_completion` (lines 1047-1083): empty input
short-circuits to an empty dict before any storage access; otherwise one bulk
query is issued and each input id is mapped to its membership in the returned
id set; on a storage exception the `except` handler returns the all-`false`
map over the input ids. -/
def check_users_closet_completion (db : IdQuery) (user_ids : List String) : CompletionResult :=
  if user_ids.isEmpty then ⟨[], []⟩
  else
    match db user_ids with
    | .ok result =>
        let users_with_closet := result
        ⟨user_ids.map (fun uid => (uid, users_with_closet.contains uid)), [user_ids]⟩
    | .error _ => ⟨user_ids.map (fun uid => (uid, false)), [user_ids]⟩

/-- Embeds `check_users_offer_completion` (lines 1086-1122); same shape as
the closet check, over the `offers.creator_user_id` query. -/
def check_users_offer_completion (db : IdQuery) (user_ids : List String) : CompletionResult :=
  if user_ids.isEmpty then ⟨[], []⟩
  else
    match db user_ids with
    | .ok result =>
        let users_with_offers := result
        ⟨user_ids.map (fun uid => (uid, users_with_offers.contains uid)), [user_ids]⟩
    | .error _ => ⟨user_ids.map (fun uid => (uid, false)), [user_ids]⟩

/-- Embeds `check_users_bio_completion` (lines 1125-1163); same shape, over
the non-empty-bio query. -/
def check_users_bio_completion (db : IdQuery) (user_ids : List String) : CompletionResult :=
  if user_ids.isEmpty then ⟨[], []⟩
  else
    match db user_ids with
    | .ok result =>
        let users_with_bio := result
        ⟨user_ids.map (fun uid => (uid, users_with_bio.contains uid)), [user_ids]⟩
    | .error _ => ⟨user_ids.map (fun uid => (uid, false)), [user_ids]⟩

/-- Embeds `check_users_wishlist_completion` (lines 1166-1204); same shape,
over the undeleted-wishlist-items query. -/
def check_users_wishlist_completion (db : IdQuery) (user_ids : List String) : CompletionResult :=
  if user_ids.isEmpty then ⟨[], []⟩
  else
    match db user_ids with
    | .ok result =>
        let users_with_wishlist := result
        ⟨user_ids.map (fun uid => (uid, users_with_wishlist.contains uid)), [user_ids]⟩
    | .error _ => ⟨user_ids.map (fun uid => (uid, false)), [user_ids]⟩

/-- Embeds `compare_and_remove` (push_csv_queries.py, lines 1252-1284):
users of `remaining_users` whose id is not among the truthy (non-empty)
ids of `extracted_users`. -/
def compare_and_remove (remaining_users extracted_users : List User) : List User :=
  if remaining_users.isEmpty then []
  else if extracted_users.isEmpty then remaining_users
  else
    let extracted_ids := ((extracted_users.filter (fun u => u.user_id != "")).map User.user_id)
    remaining_users.filter (fun u => !(extracted_ids.contains u.user_id))

/-- Lookup in a Python dict modelled as an association list (first matching
key; `dinsert` keeps keys unique so this is the dict lookup). -/
def dlookup {β : Type} : List (String × β) → String → Option β
  | [], _ => none
  | p :: m, k => if p.1 = k then some p.2 else dlookup m k

/-- Python `k in dict` membership test. -/
def hasKey {β : Type} (m : List (String × β)) (k : String) : Bool :=
  (dlookup m k).isSome

/-- Python dict assignment `d[k] = v`: replace the value if the key is
present, otherwise append the pair. -/
def dinsert {β : Type} : List (String × β) → String → β → List (String × β)
  | [], k, v => [(k, v)]
  | p :: m, k, v => if p.1 = k then (k, v) :: m else p :: dinsert m k v

/-- The loop `for item in rows: target_shoes[item['user_id']] = item`. -/
def insertRows (m : List (String × ShoeRow)) (rows : List ShoeRow) : List (String × ShoeRow) :=
  rows.foldl (fun acc item => dinsert acc item.user_id item) m

/-- The four enrichment queries of `get_top_target_shoe_for_users`, each
given as its `execute_query` response function. -/
structure FallbackDB where
  primary : ShoeQuery
  secondary : ShoeQuery
  tertiary : ShoeQuery
  quaternary : ShoeQuery

/-- Result of `get_top_target_shoe_for_users`: the `target_shoes` dict, plus
the instrumentation trace of the id list each fallback query was issued with
(`[]` when the fallback block was skipped because no user needed it). -/
structure TargetShoeResult where
  target_shoes : List (String × ShoeRow)
  secondary_queried : List String
  tertiary_queried : List String
  quaternary_queried : List String
  deriving DecidableEq, Repr

/-- One fallback block of `get_top_target_shoe_for_users`: compute the users
still missing from `target_shoes`, and if any, issue the query for exactly
those users, folding returned rows into the dict (the dict is left unchanged
when the query raises). -/
def fallback_stage (query : ShoeQuery) (user_ids : List String)
    (target_shoes : List (String × ShoeRow)) : List (String × ShoeRow) × List String :=
  let users_needing_fallback := user_ids.filter (fun uid => !(hasKey target_shoes uid))
  if users_needing_fallback.isEmpty then (target_shoes, [])
  else
    match query users_needing_fallback with
    | .ok rows => (insertRows target_shoes rows, users_needing_fallback)
    | .error _ => (target_shoes, users_needing_fallback)

/-- Embeds `get_top_target_shoe_for_users` (generate_new_user_waterfall.py,
lines 58-223): primary query over all ids seeds the dict (empty on error),
then secondary, tertiary and quaternary fallbacks each run only over the ids
still absent from the dict. -/
def get_top_target_shoe_for_users (fb : FallbackDB) (user_ids : List String) : TargetShoeResult :=
  if user_ids.isEmpty then ⟨[], [], [], []⟩
  else
    let target_shoes : List (String × ShoeRow) :=
      match fb.primary user_ids with
      | .ok rows => insertRows [] rows
      | .error _ => []
    let s := fallback_stage fb.secondary user_ids target_shoes
    let t := fallback_stage fb.tertiary user_ids s.1
    let q := fallback_stage fb.quaternary user_ids t.1
    ⟨q.1, s.2, t.2, q.2⟩

/-- Embeds `extract_level_1_no_shoes` (lines 265-300): peel off the users
whose closet completion is false, tag them level 1, and remove them from the
remaining pool. -/
def extract_level_1_no_shoes (closetDb : IdQuery) (remaining_users : List User) :
    List User × List User :=
  if remaining_users.isEmpty then ([], [])
  else
    let user_ids := remaining_users.map User.user_id
    let closet_completion := check_users_closet_completion closetDb user_ids
    let no_closet_user_ids :=
      (closet_completion.completion_map.filter (fun p => !p.2)).map Prod.fst
    let extracted_users :=
      (remaining_users.filter (fun u => no_closet_user_ids.contains u.user_id)).map
        (fun u => { u with new_user_level := some 1 })
    let new_remaining := compare_and_remove remaining_users extracted_users
    (extracted_users, new_remaining)

/-- Embeds `extract_level_2_no_bio` (lines 303-338). -/
def extract_level_2_no_bio (bioDb : IdQuery) (remaining_users : List User) :
    List User × List User :=
  if remaining_users.isEmpty then ([], [])
  else
    let user_ids := remaining_users.map User.user_id
    let bio_completion := check_users_bio_completion bioDb user_ids
    let no_bio_user_ids :=
      (bio_completion.completion_map.filter (fun p => !p.2)).map Prod.fst
    let extracted_users :=
      (remaining_users.filter (fun u => no_bio_user_ids.contains u.user_id)).map
        (fun u => { u with new_user_level := some 2 })
    let new_remaining := compare_and_remove remaining_users extracted_users
    (extracted_users, new_remaining)

/-- Embeds `extract_level_3_no_offers` (lines 341-381): level tag 3 plus
target-shoe enrichment, looked up only for the extracted subset; a user
missing from the enrichment dict gets `none` in both enrichment fields
(Python `dict.get` on the empty default). -/
def extract_level_3_no_offers (offerDb : IdQuery) (fb : FallbackDB)
    (remaining_users : List User) : List User × List User :=
  if remaining_users.isEmpty then ([], [])
  else
    let user_ids := remaining_users.map User.user_id
    let offer_completion := check_users_offer_completion offerDb user_ids
    let no_offers_user_ids :=
      (offer_completion.completion_map.filter (fun p => !p.2)).map Prod.fst
    let extracted_pre := remaining_users.filter (fun u => no_offers_user_ids.contains u.user_id)
    let target_shoes :=
      (get_top_target_shoe_for_users fb (extracted_pre.map User.user_id)).target_shoes
    let extracted_users := extracted_pre.map (fun u =>
      { u with new_user_level := some 3,
               top_target_shoe := (dlookup target_shoes u.user_id).map ShoeRow.product_name,
               target_variantID := (dlookup target_shoes u.user_id).map ShoeRow.product_variant_id })
    let new_remaining := compare_and_remove remaining_users extracted_users
    (extracted_users, new_remaining)

/-- Embeds `extract_level_4_no_wishlist` (lines 384-424). -/
def extract_level_4_no_wishlist (wishlistDb : IdQuery) (fb : FallbackDB)
    (remaining_users : List User) : List User × List User :=
  if remaining_users.isEmpty then ([], [])
  else
    let user_ids := remaining_users.map User.user_id
    let wishlist_completion := check_users_wishlist_completion wishlistDb user_ids
    let no_wishlist_user_ids :=
      (wishlist_completion.completion_map.filter (fun p => !p.2)).map Prod.fst
    let extracted_pre := remaining_users.filter (fun u => no_wishlist_user_ids.contains u.user_id)
    let target_shoes :=
      (get_top_target_shoe_for_users fb (extracted_pre.map User.user_id)).target_shoes
    let extracted_users := extracted_pre.map (fun u =>
      { u with new_user_level := some 4,
               top_target_shoe := (dlookup target_shoes u.user_id).map ShoeRow.product_name,
               target_variantID := (dlookup target_shoes u.user_id).map ShoeRow.product_variant_id })
    let new_remaining := compare_and_remove remaining_users extracted_users
    (extracted_users, new_remaining)

/-- Embeds `extract_level_5_new_stars` (lines 427-458): every remaining user
is extracted (tagged level 5, enriched), and the final remaining pool is the
set difference of the pool with itself. -/
def extract_level_5_new_stars (fb : FallbackDB) (remaining_users : List User) :
    List User × List User :=
  if remaining_users.isEmpty then ([], [])
  else
    let extracted_pre := remaining_users
    let target_shoes :=
      (get_top_target_shoe_for_users fb (extracted_pre.map User.user_id)).target_shoes
    let extracted_users := extracted_pre.map (fun u =>
      { u with new_user_level := some 5,
               top_target_shoe := (dlookup target_shoes u.user_id).map ShoeRow.product_name,
               target_variantID := (dlookup target_shoes u.user_id).map ShoeRow.product_variant_id })
    let final_remaining := compare_and_remove remaining_users extracted_users
    (extracted_users, final_remaining)

/-- One entry of the `extraction_results['extractions']` dict in `main`. -/
structure LevelData where
  extracted_users : List User
  extracted_count : Nat
  remaining_after : Nat
  deriving DecidableEq, Repr

/-- The `extraction_results` dict of `main` (minus the file list, which
`main_generate_files` models); `extractions` keeps the dict's insertion
order, keys "1".."5". -/
structure ExtractionResults where
  initial_count : Nat
  extractions : List (String × LevelData)
  final_remaining : List User
  deriving DecidableEq, Repr

/-- The five `execute_query` responses the waterfall consumes: one per
completion predicate, plus the enrichment queries. -/
structure WaterfallDB where
  closet : IdQuery
  bio : IdQuery
  offer : IdQuery
  wishlist : IdQuery
  fb : FallbackDB

/-- The sequential extraction part of `main` (lines 675-729): thread the
remaining pool through the five levels and record counts per level. -/
def run_waterfall (db : WaterfallDB) (base_users : List User) : ExtractionResults :=
  let initial_count := base_users.length
  let s1 := extract_level_1_no_shoes db.closet base_users
  let s2 := extract_level_2_no_bio db.bio s1.2
  let s3 := extract_level_3_no_offers db.offer db.fb s2.2
  let s4 := extract_level_4_no_wishlist db.wishlist db.fb s3.2
  let s5 := extract_level_5_new_stars db.fb s4.2
  { initial_count := initial_count
    extractions :=
      [("1", ⟨s1.1, s1.1.length, s1.2.length⟩),
       ("2", ⟨s2.1, s2.1.length, s2.2.length⟩),
       ("3", ⟨s3.1, s3.1.length, s3.2.length⟩),
       ("4", ⟨s4.1, s4.1.length, s4.2.length⟩),
       ("5", ⟨s5.1, s5.1.length, s5.2.length⟩)]
    final_remaining := s5.2 }

/-- The adjacent-pairs loop of the monotonicity check:
`all(remaining_counts[i] >= remaining_counts[i+1])`. -/
def monotonic_check : List Nat → Bool
  | a :: b :: rest => decide (b ≤ a) && monotonic_check (b :: rest)
  | _ => true

/-- The disjointness loop of `validate_waterfall_integrity`: walk the levels
accumulating seen ids; an overlap flips the flag to false (and, as in the
source, does not add the overlapping level's ids to the seen set). -/
def disjoint_check (seen : List String) (validation_passed : Bool) :
    List (String × LevelData) → Bool
  | [] => validation_passed
  | (_, data) :: rest =>
      let level_ids := data.extracted_users.map User.user_id
      if level_ids.any (fun i => seen.contains i) then
        disjoint_check seen false rest
      else
        disjoint_check (seen ++ level_ids) validation_passed rest

/-- Embeds `validate_waterfall_integrity` (lines 599-653): conjunction of the
monotonicity, full-coverage and disjointness checks. -/
def validate_waterfall_integrity (extraction_results : ExtractionResults) : Bool :=
  let remaining_counts :=
    extraction_results.initial_count ::
      extraction_results.extractions.map (fun p => p.2.remaining_after)
  let is_monotonic := monotonic_check remaining_counts
  let total_extracted := (extraction_results.extractions.map (fun p => p.2.extracted_count)).sum
  let full_coverage :=
    extraction_results.initial_count == total_extracted + extraction_results.final_remaining.length
  let disjointness := disjoint_check [] true extraction_results.extractions
  is_monotonic && full_coverage && disjointness

/-- One entry of `extraction_results['generated_files']`; the SHA256
checksum of the file bytes is collaborator-side I/O and is not modelled. -/
structure FileRec where
  path : String
  count : Nat
  is_test : Bool := false
  deriving DecidableEq, Repr

/-- Production CSV filename per level key (the `file_configs` list of
`main`). -/
def production_filename (level : String) (timestamp : String) : String :=
  (if level == "1" then "no-shoes-new-user-"
   else if level == "2" then "no-bio-new-user-"
   else if level == "3" then "no-offers-new-user-"
   else if level == "4" then "no-wishlist-new-user-"
   else "new-stars-new-user-") ++ timestamp ++ ".csv"

/-- Test CSV filename per level key (the `test_configs` list of
`generate_test_csvs`). -/
def test_filename (level : String) (timestamp : String) : String :=
  (if level == "1" then "no-shoes-new-user-test-"
   else if level == "2" then "no-bio-new-user-test-"
   else if level == "3" then "no-offers-new-user-test-"
   else if level == "4" then "no-wishlist-new-user-test-"
   else "new-stars-new-user-test-") ++ timestamp ++ ".csv"

/-- Steps 3-5 of `main` (lines 735-778): production CSVs for the non-empty
levels, founder-only test CSVs for the levels with a positive extracted
count, and the residual CSV when the final remainder is non-empty.  This is
everything `main` writes before validation runs (the post-validation metrics
JSON is not a per-tier output file). -/
def main_generate_files (r : ExtractionResults) (timestamp : String) : List FileRec :=
  let production := (r.extractions.filter (fun p => !p.2.extracted_users.isEmpty)).map
      (fun p => { path := production_filename p.1 timestamp,
                  count := p.2.extracted_users.length : FileRec })
  let tests := (r.extractions.filter (fun p => decide (0 < p.2.extracted_count))).map
      (fun p => { path := test_filename p.1 timestamp, count := 1, is_test := true : FileRec })
  let residual :=
    if r.final_remaining.isEmpty then []
    else [{ path := "residual-remaining-" ++ timestamp ++ ".csv",
            count := r.final_remaining.length : FileRec }]
  production ++ tests ++ residual

/-- Observable outcome of one `main` invocation: early exit on an empty base
audience, dry-run exit after extraction, or a completed run with its file
list, validation verdict and process exit code. -/
inductive RunOutcome where
  | no_users : RunOutcome
  | dry_run_done (results : ExtractionResults) : RunOutcome
  | completed (results : ExtractionResults) (generated_files : List FileRec)
      (validation_passed : Bool) (exit_code : Nat) : RunOutcome
  deriving DecidableEq, Repr

/-- Embeds `main` (lines 656-809): fetch the base audience (early exit when
it is empty), run the waterfall, exit early on `--dry_run`, otherwise write
all output files, then validate, and exit 1 exactly when validation fails. -/
def main_model (db : WaterfallDB) (fetch : Except String (List User)) (dry_run : Bool)
    (timestamp : String) : RunOutcome :=
  let base_users := get_new_users_in_window fetch
  if base_users.isEmpty then RunOutcome.no_users
  else
    let results := run_waterfall db base_users
    if dry_run then RunOutcome.dry_run_done results
    else
      let generated_files := main_generate_files results timestamp
      let validation_passed := validate_waterfall_integrity results
      RunOutcome.completed results generated_files validation_passed
        (if validation_passed then 0 else 1)

/-- Number of occurrences, across the five extracted lists and the final
residual list, of records carrying the given user id. -/
def id_occurrences (r : ExtractionResults) (uid : String) : Nat :=
  (r.extractions.map (fun p => p.2.extracted_users.countP (fun v => v.user_id == uid))).sum
    + r.final_remaining.countP (fun v => v.user_id == uid)

/-- Monotonic shrinkage as the spec words it (sec. 4.4 item 1): the sequence
[initial_count, remaining-after-step-1, ...] is non-increasing. -/
def SpecMonotonic (r : ExtractionResults) : Prop :=
  List.Chain' (fun a b => b ≤ a)
    (r.initial_count :: r.extractions.map (fun p => p.2.remaining_after))

/-- Full coverage as the spec words it (sec. 4.4 item 2):
initial_count = sum of extracted counts + size of the residual. -/
def SpecCoverage (r : ExtractionResults) : Prop :=
  r.initial_count
    = (r.extractions.map (fun p => p.2.extracted_count)).sum + r.final_remaining.length

/-- Pairwise disjointness as the spec words it (sec. 4.4 item 3): no user
identifier occurs in more than one step's extracted list. -/
def SpecDisjoint (r : ExtractionResults) : Prop :=
  r.extractions.Pairwise (fun a b => ∀ uid,
    uid ∈ a.2.extracted_users.map User.user_id →
      uid ∉ b.2.extracted_users.map User.user_id)

/-- Enrichment storage in which every query raises; concrete fixture for
witnesses. -/
def allErrFallback : FallbackDB :=
  { primary := fun _ => .error "db down"
    secondary := fun _ => .error "db down"
    tertiary := fun _ => .error "db down"
    quaternary := fun _ => .error "db down" }

/-- Storage in which every completion query reports nobody complete and
enrichment raises; concrete fixture for witnesses. -/
def emptyOkDb : WaterfallDB :=
  { closet := fun _ => .ok []
    bio := fun _ => .ok []
    offer := fun _ => .ok []
    wishlist := fun _ => .ok []
    fb := allErrFallback }

/-- Storage in which the closet query raises while the other completion
queries report every queried user complete; concrete fixture for witnesses. -/
def closetErrDb : WaterfallDB :=
  { closet := fun _ => .error "db down"
    bio := fun ids => .ok ids
    offer := fun ids => .ok ids
    wishlist := fun ids => .ok ids
    fb := allErrFallback }

/-- Enrichment storage in which user u1 has both a desired-item row and a
more recent offer-target row; concrete fixture for witnesses. -/
def c5Fb : FallbackDB :=
  { primary := fun _ => .ok [⟨"u1", "v1", "Shoe A", "desired_item"⟩]
    secondary := fun qs =>
      if qs.contains "u1" then .ok [⟨"u1", "v2", "Shoe B", "recent_offer"⟩] else .ok []
    tertiary := fun _ => .ok []
    quaternary := fun _ => .ok [] }

/-- Membership form of `List.contains` over strings. -/
theorem contains_iff_mem {l : List String} {a : String} : l.contains a = true ↔ a ∈ l := by
  simp [List.contains, List.elem_iff]

/-- Looking up the key just inserted returns the inserted value. -/
theorem dlookup_dinsert_self {β : Type} (m : List (String × β)) (k : String) (v : β) :
    dlookup (dinsert m k v) k = some v := by
  induction m with
  | nil => simp [dinsert, dlookup]
  | cons p m ih =>
      by_cases h : p.1 = k
      · simp [dinsert, h, dlookup]
      · simp [dinsert, h, dlookup, ih]

/-- Inserting one key leaves lookups of other keys unchanged. -/
theorem dlookup_dinsert_ne {β : Type} (m : List (String × β)) (k k' : String) (v : β)
    (h : k' ≠ k) : dlookup (dinsert m k v) k' = dlookup m k' := by
  induction m with
  | nil => simp [dinsert, dlookup, Ne.symm h]
  | cons p m ih =>
      by_cases hp : p.1 = k
      · simp [dinsert, dlookup, hp, Ne.symm h]
      · by_cases hq : p.1 = k' <;> simp [dinsert, dlookup, hp, hq, h, ih]

/-- Key membership after a dict assignment. -/
theorem hasKey_dinsert_iff {β : Type} (m : List (String × β)) (k k' : String) (v : β) :
    hasKey (dinsert m k v) k' = true ↔ k' = k ∨ hasKey m k' = true := by
  by_cases h : k' = k
  · subst h; simp [hasKey, dlookup_dinsert_self]
  · simp [hasKey, dlookup_dinsert_ne m k k' v h, h]

/-- Unfolding step of the row-insert loop. -/
theorem insertRows_cons (m : List (String × ShoeRow)) (r : ShoeRow) (rows : List ShoeRow) :
    insertRows m (r :: rows) = insertRows (dinsert m r.user_id r) rows := rfl

/-- Folding in rows for other users leaves a lookup unchanged. -/
theorem dlookup_insertRows_of_forall_ne (m : List (String × ShoeRow)) (rows : List ShoeRow)
    (u : String) (h : ∀ r ∈ rows, r.user_id ≠ u) :
    dlookup (insertRows m rows) u = dlookup m u := by
  induction rows generalizing m with
  | nil => rfl
  | cons r rows ih =>
      rw [insertRows_cons, ih _ (fun r' hr' => h r' (List.mem_cons_of_mem _ hr')),
        dlookup_dinsert_ne _ _ _ _ (Ne.symm (h r (List.mem_cons_self _ _)))]

/-- When the rows contain exactly one row for a user, folding them in makes
the lookup return that row. -/
theorem dlookup_insertRows_single (m : List (String × ShoeRow)) (rows : List ShoeRow)
    (u : String) (r0 : ShoeRow) (h : rows.filter (fun row => row.user_id == u) = [r0]) :
    dlookup (insertRows m rows) u = some r0 := by
  induction rows generalizing m with
  | nil => simp at h
  | cons r rows ih =>
      by_cases hr : r.user_id = u
      · rw [List.filter_cons] at h
        simp only [hr, beq_self_eq_true, if_true, List.cons.injEq] at h
        obtain ⟨rfl, hnil⟩ := h
        have hnone : ∀ r' ∈ rows, r'.user_id ≠ u := by
          intro r' hr' he
          have := List.filter_eq_nil_iff.mp hnil r' hr'
          simp [he] at this
        rw [insertRows_cons, dlookup_insertRows_of_forall_ne _ _ _ hnone, ← hr,
          dlookup_dinsert_self]
      · rw [List.filter_cons] at h
        simp only [beq_iff_eq, hr, if_false] at h
        rw [insertRows_cons]
        exact ih _ h

/-- Key membership after folding in rows. -/
theorem hasKey_insertRows_iff (m : List (String × ShoeRow)) (rows : List ShoeRow) (u : String) :
    hasKey (insertRows m rows) u = true ↔ (∃ r ∈ rows, r.user_id = u) ∨ hasKey m u = true := by
  induction rows generalizing m with
  | nil => simp [insertRows]
  | cons r rows ih =>
      rw [insertRows_cons, ih]
      constructor
      · rintro (⟨r', hr', he⟩ | hd)
        · exact Or.inl ⟨r', List.mem_cons_of_mem _ hr', he⟩
        · rcases (hasKey_dinsert_iff m r.user_id u r).mp hd with hu | hm
          · exact Or.inl ⟨r, List.mem_cons_self _ _, hu.symm⟩
          · exact Or.inr hm
      · rintro (⟨r', hr', he⟩ | hm)
        · rcases List.mem_cons.mp hr' with h | h
          · subst h
            exact Or.inr ((hasKey_dinsert_iff m r'.user_id u r').mpr (Or.inl he.symm))
          · exact Or.inl ⟨r', h, he⟩
        · exact Or.inr ((hasKey_dinsert_iff m r.user_id u r).mpr (Or.inr hm))

/-- The set-difference step never grows the remaining pool. -/
theorem compare_and_remove_length_le (remaining extracted : List User) :
    (compare_and_remove remaining extracted).length ≤ remaining.length := by
  rw [compare_and_remove]
  split
  · simp
  · split
    · exact Nat.le_refl _
    · exact List.length_filter_le _ _

/-- The set-difference step only keeps users of the remaining pool. -/
theorem mem_of_mem_compare_and_remove {remaining extracted : List User} {u : User}
    (h : u ∈ compare_and_remove remaining extracted) : u ∈ remaining := by
  rw [compare_and_remove] at h
  split at h
  · simp at h
  · split at h
    · exact h
    · exact (List.mem_filter.mp h).1

/-- Under distinct non-empty ids, removing the id-filtered extraction from
the pool is exactly filtering by the negated predicate. -/
theorem compare_and_remove_of_filter_map (remaining : List User) (p : User → Bool)
    (f : User → User) (hf : ∀ u, (f u).user_id = u.user_id)
    (hnd : (remaining.map User.user_id).Nodup)
    (hne : ∀ u ∈ remaining, u.user_id ≠ "") :
    compare_and_remove remaining ((remaining.filter p).map f)
      = remaining.filter (fun u => !(p u)) := by
  rw [compare_and_remove]
  split
  · rename_i hemp
    rw [List.isEmpty_iff.mp hemp]
    rfl
  · split
    · rename_i hemp hext
      have h1 : remaining.filter p = [] := by
        have := List.isEmpty_iff.mp hext
        exact List.map_eq_nil_iff.mp this
      refine (List.filter_eq_self.mpr ?_).symm
      intro u hu
      have := List.filter_eq_nil_iff.mp h1 u hu
      simp only [Bool.not_eq_true'] at this ⊢
      exact Bool.not_eq_true _ ▸ (by simpa using this)
    · rename_i hemp hext
      have hids : ((remaining.filter p).map f).filter (fun u => u.user_id != "")
          = (remaining.filter p).map f := by
        rw [List.filter_eq_self]
        intro v hv
        obtain ⟨u, hu, rfl⟩ := List.mem_map.mp hv
        have hu' : u.user_id ≠ "" := hne u (List.mem_of_mem_filter hu)
        simpa [hf] using hu'
      have hmapids : (((remaining.filter p).map f).filter (fun u => u.user_id != "")).map
            User.user_id = (remaining.filter p).map User.user_id := by
        rw [hids, List.map_map]
        exact List.map_congr_left (fun u _ => hf u)
      rw [hmapids]
      apply List.filter_congr
      intro u hu
      have hcu : ((remaining.filter p).map User.user_id).contains u.user_id = p u := by
        rw [Bool.eq_iff_iff, contains_iff_mem]
        constructor
        · intro hmem
          obtain ⟨v, hv, he⟩ := List.mem_map.mp hmem
          have hv' : v ∈ remaining := List.mem_of_mem_filter hv
          have heq : v = u := List.inj_on_of_nodup_map hnd hv' hu he
          subst heq
          exact (List.mem_filter.mp hv).2
        · intro hp
          exact List.mem_map.mpr ⟨u, List.mem_filter.mpr ⟨hu, hp⟩, rfl⟩
      rw [hcu]

/-- Filtering a list with a predicate and its negation accounts for every
occurrence counted by any other predicate. -/
theorem countP_filter_add (l : List User) (p q : User → Bool) :
    (l.filter p).countP q + (l.filter (fun u => !(p u))).countP q = l.countP q := by
  induction l with
  | nil => simp
  | cons a l ih =>
      by_cases hp : p a = true <;> by_cases hq : q a = true <;>
        simp [List.filter_cons, hp, hq, List.countP_cons] <;> omega

/-- Mapping an id-preserving function does not change id-based counts. -/
theorem countP_map_user_id (l : List User) (f : User → User)
    (hf : ∀ u, (f u).user_id = u.user_id) (uid : String) :
    (l.map f).countP (fun v => v.user_id == uid) = l.countP (fun v => v.user_id == uid) := by
  rw [List.countP_map]
  exact List.countP_congr (fun u _ => by simp [Function.comp, hf])

/-- Each extraction step returns, as its second component, the set
difference of its input pool with its first component (level 1). -/
theorem extract_level_1_snd (db : IdQuery) (rem : List User) :
    (extract_level_1_no_shoes db rem).2
      = compare_and_remove rem (extract_level_1_no_shoes db rem).1 := by
  rw [extract_level_1_no_shoes]
  split
  · rename_i h
    rw [List.isEmpty_iff.mp h]
    rfl
  · rfl

/-- Set-difference form of the second component (level 2). -/
theorem extract_level_2_snd (db : IdQuery) (rem : List User) :
    (extract_level_2_no_bio db rem).2
      = compare_and_remove rem (extract_level_2_no_bio db rem).1 := by
  rw [extract_level_2_no_bio]
  split
  · rename_i h
    rw [List.isEmpty_iff.mp h]
    rfl
  · rfl

/-- Set-difference form of the second component (level 3). -/
theorem extract_level_3_snd (db : IdQuery) (fb : FallbackDB) (rem : List User) :
    (extract_level_3_no_offers db fb rem).2
      = compare_and_remove rem (extract_level_3_no_offers db fb rem).1 := by
  rw [extract_level_3_no_offers]
  split
  · rename_i h
    rw [List.isEmpty_iff.mp h]
    rfl
  · rfl

/-- Set-difference form of the second component (level 4). -/
theorem extract_level_4_snd (db : IdQuery) (fb : FallbackDB) (rem : List User) :
    (extract_level_4_no_wishlist db fb rem).2
      = compare_and_remove rem (extract_level_4_no_wishlist db fb rem).1 := by
  rw [extract_level_4_no_wishlist]
  split
  · rename_i h
    rw [List.isEmpty_iff.mp h]
    rfl
  · rfl

/-- Set-difference form of the second component (level 5). -/
theorem extract_level_5_snd (fb : FallbackDB) (rem : List User) :
    (extract_level_5_new_stars fb rem).2
      = compare_and_remove rem (extract_level_5_new_stars fb rem).1 := by
  rw [extract_level_5_new_stars]
  split
  · rename_i h
    rw [List.isEmpty_iff.mp h]
    rfl
  · rfl

/-- The extracted list of level 1 is an id-filter of the pool mapped through
an id-preserving tagging function. -/
theorem extract_level_1_fst_shape (db : IdQuery) (rem : List User) :
    ∃ (p : User → Bool) (f : User → User),
      (extract_level_1_no_shoes db rem).1 = (rem.filter p).map f
        ∧ ∀ u, (f u).user_id = u.user_id := by
  rw [extract_level_1_no_shoes]
  split
  · rename_i h
    rw [List.isEmpty_iff.mp h]
    exact ⟨fun _ => false, id, rfl, fun _ => rfl⟩
  · exact ⟨_, _, rfl, fun _ => rfl⟩

/-- The extracted list of level 2 is an id-filter of the pool mapped through
an id-preserving tagging function. -/
theorem extract_level_2_fst_shape (db : IdQuery) (rem : List User) :
    ∃ (p : User → Bool) (f : User → User),
      (extract_level_2_no_bio db rem).1 = (rem.filter p).map f
        ∧ ∀ u, (f u).user_id = u.user_id := by
  rw [extract_level_2_no_bio]
  split
  · rename_i h
    rw [List.isEmpty_iff.mp h]
    exact ⟨fun _ => false, id, rfl, fun _ => rfl⟩
  · exact ⟨_, _, rfl, fun _ => rfl⟩

/-- The extracted list of level 3 is an id-filter of the pool mapped through
an id-preserving tag-and-enrich function. -/
theorem extract_level_3_fst_shape (db : IdQuery) (fb : FallbackDB) (rem : List User) :
    ∃ (p : User → Bool) (f : User → User),
      (extract_level_3_no_offers db fb rem).1 = (rem.filter p).map f
        ∧ ∀ u, (f u).user_id = u.user_id := by
  rw [extract_level_3_no_offers]
  split
  · rename_i h
    rw [List.isEmpty_iff.mp h]
    exact ⟨fun _ => false, id, rfl, fun _ => rfl⟩
  · exact ⟨_, _, rfl, fun _ => rfl⟩

/-- The extracted list of level 4 is an id-filter of the pool mapped through
an id-preserving tag-and-enrich function. -/
theorem extract_level_4_fst_shape (db : IdQuery) (fb : FallbackDB) (rem : List User) :
    ∃ (p : User → Bool) (f : User → User),
      (extract_level_4_no_wishlist db fb rem).1 = (rem.filter p).map f
        ∧ ∀ u, (f u).user_id = u.user_id := by
  rw [extract_level_4_no_wishlist]
  split
  · rename_i h
    rw [List.isEmpty_iff.mp h]
    exact ⟨fun _ => false, id, rfl, fun _ => rfl⟩
  · exact ⟨_, _, rfl, fun _ => rfl⟩

/-- The extracted list of level 5 is the whole pool mapped through an
id-preserving tag-and-enrich function. -/
theorem extract_level_5_fst_shape (fb : FallbackDB) (rem : List User) :
    ∃ f : User → User,
      (extract_level_5_new_stars fb rem).1 = rem.map f
        ∧ ∀ u, (f u).user_id = u.user_id := by
  rw [extract_level_5_new_stars]
  split
  · rename_i h
    rw [List.isEmpty_iff.mp h]
    exact ⟨id, rfl, fun _ => rfl⟩
  · exact ⟨_, rfl, fun _ => rfl⟩

/-- The set-difference step always yields a sublist of the remaining pool. -/
theorem compare_and_remove_sublist (remaining extracted : List User) :
    List.Sublist (compare_and_remove remaining extracted) remaining := by
  rw [compare_and_remove]
  split
  · exact List.nil_sublist _
  · split
    · exact List.Sublist.refl _
    · exact List.filter_sublist _

/-- Removing an id-preserving image of the whole pool empties the pool,
provided every id is non-empty. -/
theorem compare_and_remove_map_self (rem : List User) (f : User → User)
    (hf : ∀ u, (f u).user_id = u.user_id) (hne : ∀ u ∈ rem, u.user_id ≠ "") :
    compare_and_remove rem (rem.map f) = [] := by
  rw [compare_and_remove]
  split
  · rfl
  · split
    · rename_i h1 h2
      rw [List.isEmpty_iff] at h2
      rw [List.map_eq_nil_iff.mp h2] at h1
      simp at h1
    · apply List.filter_eq_nil_iff.mpr
      intro u hu
      have hmem : u.user_id ∈ ((rem.map f).filter (fun v => v.user_id != "")).map User.user_id := by
        refine List.mem_map.mpr ⟨f u, ?_, hf u⟩
        refine List.mem_filter.mpr ⟨List.mem_map.mpr ⟨u, hu, rfl⟩, ?_⟩
        simpa [hf] using hne u hu
      have hc : (((rem.map f).filter (fun v => v.user_id != "")).map User.user_id).contains
          u.user_id = true := contains_iff_mem.mpr hmem
      rw [Bool.not_eq_true', hc]
      simp

/-- Extracting by a predicate and removing the extraction splits the
id-based count of the pool. -/
theorem step_count (rem : List User) (p : User → Bool) (f : User → User)
    (hf : ∀ u, (f u).user_id = u.user_id)
    (hnd : (rem.map User.user_id).Nodup) (hne : ∀ u ∈ rem, u.user_id ≠ "")
    (uid : String) :
    ((rem.filter p).map f).countP (fun v => v.user_id == uid)
      + (compare_and_remove rem ((rem.filter p).map f)).countP (fun v => v.user_id == uid)
      = rem.countP (fun v => v.user_id == uid) := by
  rw [compare_and_remove_of_filter_map rem p f hf hnd hne,
    countP_map_user_id _ f hf, countP_filter_add]

/-- C1: for every initial population with distinct, non-empty user_id
values, and for every outcome of the four completion predicates (any
storage responses at all), the waterfall assigns each record of the initial
population to exactly one level's extracted list or to the final residual
list: across those six lists, the id of each initial record occurs exactly
once — no record is dropped and none appears twice. -/
theorem waterfall_partition (db : WaterfallDB) (base : List User)
    (hnd : (base.map User.user_id).Nodup) (hne : ∀ u ∈ base, u.user_id ≠ "")
    (uid : String) (hmem : uid ∈ base.map User.user_id) :
    id_occurrences (run_waterfall db base) uid = 1 := by
  obtain ⟨p1, f1, he1, hf1⟩ := extract_level_1_fst_shape db.closet base
  have hsnd1 := extract_level_1_snd db.closet base
  have hsub1 : List.Sublist (extract_level_1_no_shoes db.closet base).2 base := by
    rw [hsnd1]; exact compare_and_remove_sublist _ _
  have hcount1 : (extract_level_1_no_shoes db.closet base).1.countP (fun v => v.user_id == uid)
      + (extract_level_1_no_shoes db.closet base).2.countP (fun v => v.user_id == uid)
      = base.countP (fun v => v.user_id == uid) := by
    rw [hsnd1, he1]
    exact step_count base p1 f1 hf1 hnd hne uid
  have hnd1 : ((extract_level_1_no_shoes db.closet base).2.map User.user_id).Nodup :=
    (hsub1.map User.user_id).nodup hnd
  have hne1 : ∀ u ∈ (extract_level_1_no_shoes db.closet base).2, u.user_id ≠ "" :=
    fun u hu => hne u (hsub1.subset hu)
  set r1 := (extract_level_1_no_shoes db.closet base).2
  obtain ⟨p2, f2, he2, hf2⟩ := extract_level_2_fst_shape db.bio r1
  have hsnd2 := extract_level_2_snd db.bio r1
  have hsub2 : List.Sublist (extract_level_2_no_bio db.bio r1).2 r1 := by
    rw [hsnd2]; exact compare_and_remove_sublist _ _
  have hcount2 : (extract_level_2_no_bio db.bio r1).1.countP (fun v => v.user_id == uid)
      + (extract_level_2_no_bio db.bio r1).2.countP (fun v => v.user_id == uid)
      = r1.countP (fun v => v.user_id == uid) := by
    rw [hsnd2, he2]
    exact step_count r1 p2 f2 hf2 hnd1 hne1 uid
  have hnd2 : ((extract_level_2_no_bio db.bio r1).2.map User.user_id).Nodup :=
    (hsub2.map User.user_id).nodup hnd1
  have hne2 : ∀ u ∈ (extract_level_2_no_bio db.bio r1).2, u.user_id ≠ "" :=
    fun u hu => hne1 u (hsub2.subset hu)
  set r2 := (extract_level_2_no_bio db.bio r1).2
  obtain ⟨p3, f3, he3, hf3⟩ := extract_level_3_fst_shape db.offer db.fb r2
  have hsnd3 := extract_level_3_snd db.offer db.fb r2
  have hsub3 : List.Sublist (extract_level_3_no_offers db.offer db.fb r2).2 r2 := by
    rw [hsnd3]; exact compare_and_remove_sublist _ _
  have hcount3 : (extract_level_3_no_offers db.offer db.fb r2).1.countP
        (fun v => v.user_id == uid)
      + (extract_level_3_no_offers db.offer db.fb r2).2.countP (fun v => v.user_id == uid)
      = r2.countP (fun v => v.user_id == uid) := by
    rw [hsnd3, he3]
    exact step_count r2 p3 f3 hf3 hnd2 hne2 uid
  have hnd3 : ((extract_level_3_no_offers db.offer db.fb r2).2.map User.user_id).Nodup :=
    (hsub3.map User.user_id).nodup hnd2
  have hne3 : ∀ u ∈ (extract_level_3_no_offers db.offer db.fb r2).2, u.user_id ≠ "" :=
    fun u hu => hne2 u (hsub3.subset hu)
  set r3 := (extract_level_3_no_offers db.offer db.fb r2).2
  obtain ⟨p4, f4, he4, hf4⟩ := extract_level_4_fst_shape db.wishlist db.fb r3
  have hsnd4 := extract_level_4_snd db.wishlist db.fb r3
  have hsub4 : List.Sublist (extract_level_4_no_wishlist db.wishlist db.fb r3).2 r3 := by
    rw [hsnd4]; exact compare_and_remove_sublist _ _
  have hcount4 : (extract_level_4_no_wishlist db.wishlist db.fb r3).1.countP
        (fun v => v.user_id == uid)
      + (extract_level_4_no_wishlist db.wishlist db.fb r3).2.countP (fun v => v.user_id == uid)
      = r3.countP (fun v => v.user_id == uid) := by
    rw [hsnd4, he4]
    exact step_count r3 p4 f4 hf4 hnd3 hne3 uid
  have hne4 : ∀ u ∈ (extract_level_4_no_wishlist db.wishlist db.fb r3).2, u.user_id ≠ "" :=
    fun u hu => hne3 u (hsub4.subset hu)
  set r4 := (extract_level_4_no_wishlist db.wishlist db.fb r3).2
  obtain ⟨f5, he5, hf5⟩ := extract_level_5_fst_shape db.fb r4
  have hsnd5 := extract_level_5_snd db.fb r4
  have hfin : (extract_level_5_new_stars db.fb r4).2 = [] := by
    rw [hsnd5, he5]
    exact compare_and_remove_map_self r4 f5 hf5 hne4
  have hcount5 : (extract_level_5_new_stars db.fb r4).1.countP (fun v => v.user_id == uid)
      = r4.countP (fun v => v.user_id == uid) := by
    rw [he5]
    exact countP_map_user_id r4 f5 hf5 uid
  have hlast : (extract_level_5_new_stars db.fb r4).2.countP (fun v => v.user_id == uid) = 0 := by
    rw [hfin]
    rfl
  have hbase : base.countP (fun v => v.user_id == uid) = 1 := by
    have h1 : (base.map User.user_id).count uid = 1 := List.count_eq_one_of_mem hnd hmem
    rw [List.count_eq_countP, List.countP_map] at h1
    exact h1
  have hreduce : id_occurrences (run_waterfall db base) uid
      = (extract_level_1_no_shoes db.closet base).1.countP (fun v => v.user_id == uid)
        + ((extract_level_2_no_bio db.bio r1).1.countP (fun v => v.user_id == uid)
        + ((extract_level_3_no_offers db.offer db.fb r2).1.countP (fun v => v.user_id == uid)
        + ((extract_level_4_no_wishlist db.wishlist db.fb r3).1.countP (fun v => v.user_id == uid)
        + ((extract_level_5_new_stars db.fb r4).1.countP (fun v => v.user_id == uid) + 0))))
        + (extract_level_5_new_stars db.fb r4).2.countP (fun v => v.user_id == uid) := rfl
  rw [hreduce]
  omega

/-- The four completion evaluators have literally identical logic over their
respective query responses (bio). -/
theorem check_bio_eq_closet : check_users_bio_completion = check_users_closet_completion := rfl

/-- Identical logic of the evaluators (offer). -/
theorem check_offer_eq_closet : check_users_offer_completion = check_users_closet_completion := rfl

/-- Identical logic of the evaluators (wishlist). -/
theorem check_wishlist_eq_closet :
    check_users_wishlist_completion = check_users_closet_completion := rfl

/-- Evaluation of a completion check on a successful query. -/
theorem check_closet_eval_ok (db : IdQuery) (ids rows : List String)
    (h : ids.isEmpty = false) (hdb : db ids = Except.ok rows) :
    check_users_closet_completion db ids
      = ⟨ids.map (fun uid => (uid, rows.contains uid)), [ids]⟩ := by
  have hcond : ¬(ids.isEmpty = true) := by simp [h]
  rw [check_users_closet_completion, if_neg hcond, hdb]

/-- Evaluation of a completion check on a raised query. -/
theorem check_closet_eval_err (db : IdQuery) (ids : List String) (msg : String)
    (h : ids.isEmpty = false) (hdb : db ids = Except.error msg) :
    check_users_closet_completion db ids = ⟨ids.map (fun uid => (uid, false)), [ids]⟩ := by
  have hcond : ¬(ids.isEmpty = true) := by simp [h]
  rw [check_users_closet_completion, if_neg hcond, hdb]

/-- C6: every extraction step returns a still-remaining list no longer than
its input pool, and consequently the sequence of remaining-population sizes
across the five waterfall steps is non-increasing. -/
theorem remaining_monotonicity :
    (∀ (db : IdQuery) (rem : List User),
        (extract_level_1_no_shoes db rem).2.length ≤ rem.length)
    ∧ (∀ (db : IdQuery) (rem : List User),
        (extract_level_2_no_bio db rem).2.length ≤ rem.length)
    ∧ (∀ (db : IdQuery) (fb : FallbackDB) (rem : List User),
        (extract_level_3_no_offers db fb rem).2.length ≤ rem.length)
    ∧ (∀ (db : IdQuery) (fb : FallbackDB) (rem : List User),
        (extract_level_4_no_wishlist db fb rem).2.length ≤ rem.length)
    ∧ (∀ (fb : FallbackDB) (rem : List User),
        (extract_level_5_new_stars fb rem).2.length ≤ rem.length)
    ∧ (∀ (db : WaterfallDB) (base : List User),
        List.Chain' (fun a b => b ≤ a)
          ((run_waterfall db base).initial_count ::
            (run_waterfall db base).extractions.map (fun p => p.2.remaining_after))) := by
  refine ⟨?_, ?_, ?_, ?_, ?_, ?_⟩
  · intro db rem
    rw [extract_level_1_snd]
    exact compare_and_remove_length_le _ _
  · intro db rem
    rw [extract_level_2_snd]
    exact compare_and_remove_length_le _ _
  · intro db fb rem
    rw [extract_level_3_snd]
    exact compare_and_remove_length_le _ _
  · intro db fb rem
    rw [extract_level_4_snd]
    exact compare_and_remove_length_le _ _
  · intro fb rem
    rw [extract_level_5_snd]
    exact compare_and_remove_length_le _ _
  · intro db base
    set r1 := (extract_level_1_no_shoes db.closet base).2 with hr1
    set r2 := (extract_level_2_no_bio db.bio r1).2 with hr2
    set r3 := (extract_level_3_no_offers db.offer db.fb r2).2 with hr3
    set r4 := (extract_level_4_no_wishlist db.wishlist db.fb r3).2 with hr4
    set r5 := (extract_level_5_new_stars db.fb r4).2 with hr5
    have h1 : r1.length ≤ base.length := by
      rw [hr1, extract_level_1_snd]
      exact compare_and_remove_length_le _ _
    have h2 : r2.length ≤ r1.length := by
      rw [hr2, extract_level_2_snd]
      exact compare_and_remove_length_le _ _
    have h3 : r3.length ≤ r2.length := by
      rw [hr3, extract_level_3_snd]
      exact compare_and_remove_length_le _ _
    have h4 : r4.length ≤ r3.length := by
      rw [hr4, extract_level_4_snd]
      exact compare_and_remove_length_le _ _
    have h5 : r5.length ≤ r4.length := by
      rw [hr5, extract_level_5_snd]
      exact compare_and_remove_length_le _ _
    have hred : (run_waterfall db base).initial_count ::
        (run_waterfall db base).extractions.map (fun p => p.2.remaining_after)
      = [base.length, r1.length, r2.length, r3.length, r4.length, r5.length] := rfl
    rw [hred]
    exact List.chain'_cons.mpr ⟨h1, List.chain'_cons.mpr ⟨h2, List.chain'_cons.mpr ⟨h3,
      List.chain'_cons.mpr ⟨h4, List.chain'_cons.mpr ⟨h5, List.chain'_singleton _⟩⟩⟩⟩⟩

/-- C7 counterexample: on an empty initial population the run exits before
the validator is ever invoked — `main` returns the early-exit outcome, not a
completed run carrying a passing validation. -/
theorem empty_population_skips_validation :
    main_model emptyOkDb (Except.ok []) false "ts" = RunOutcome.no_users := rfl

/-- C7 amended: on an empty initial population `main` exits early (no
levels, no residual, and no validation is run); the extraction pipeline
itself, applied to an empty population, yields empty extractions at every
level, an empty residual and a passing validation, and each extraction step
given an empty remaining list returns a pair of empty lists for every
storage response whatsoever (the evaluator response is never consulted). -/
theorem empty_population_behaviour (db : WaterfallDB) (dr : Bool) (ts : String) :
    main_model db (Except.ok []) dr ts = RunOutcome.no_users
    ∧ run_waterfall db [] =
        { initial_count := 0,
          extractions := [("1", ⟨[], 0, 0⟩), ("2", ⟨[], 0, 0⟩), ("3", ⟨[], 0, 0⟩),
                          ("4", ⟨[], 0, 0⟩), ("5", ⟨[], 0, 0⟩)],
          final_remaining := [] }
    ∧ validate_waterfall_integrity (run_waterfall db []) = true
    ∧ extract_level_1_no_shoes db.closet [] = ([], [])
    ∧ extract_level_2_no_bio db.bio [] = ([], [])
    ∧ extract_level_3_no_offers db.offer db.fb [] = ([], [])
    ∧ extract_level_4_no_wishlist db.wishlist db.fb [] = ([], [])
    ∧ extract_level_5_new_stars db.fb [] = ([], []) :=
  ⟨rfl, rfl, rfl, rfl, rfl, rfl, rfl, rfl⟩

/-- C2 counterexample: a storage failure in the closet evaluator is returned
as exactly the same value as a successful evaluation in which the predicate
is false for everyone, and a failed initial fetch is returned as exactly the
empty population — neither is distinguishable by the caller, and no failure
condition is propagated. -/
theorem storage_failure_counterexample :
    check_users_closet_completion (fun _ => Except.error "connection refused") ["u1"]
      = check_users_closet_completion (fun _ => Except.ok []) ["u1"]
    ∧ (check_users_closet_completion (fun _ => Except.error "connection refused")
        ["u1"]).completion_map = [("u1", false)]
    ∧ get_new_users_in_window (Except.error "connection refused") = []
    ∧ get_new_users_in_window (Except.error "connection refused")
      = get_new_users_in_window (Except.ok []) :=
  ⟨rfl, rfl, rfl, rfl⟩

/-- C2 amended: storage failures are swallowed inside the evaluators and the
fetch: each completion evaluator catches the exception and returns the total
all-false classification over its input ids (after having issued the query),
and the initial fetch catches the exception and returns the empty
population; nothing is propagated, so the run proceeds instead of
aborting. -/
theorem storage_failure_swallowed (ids : List String) (msg : String) (h : ids ≠ []) :
    check_users_closet_completion (fun _ => Except.error msg) ids
        = ⟨ids.map (fun uid => (uid, false)), [ids]⟩
    ∧ check_users_bio_completion (fun _ => Except.error msg) ids
        = ⟨ids.map (fun uid => (uid, false)), [ids]⟩
    ∧ check_users_offer_completion (fun _ => Except.error msg) ids
        = ⟨ids.map (fun uid => (uid, false)), [ids]⟩
    ∧ check_users_wishlist_completion (fun _ => Except.error msg) ids
        = ⟨ids.map (fun uid => (uid, false)), [ids]⟩
    ∧ get_new_users_in_window (Except.error msg) = [] := by
  have hne : ids.isEmpty = false := by
    rw [List.isEmpty_eq_false]
    exact h
  refine ⟨?_, ?_, ?_, ?_, rfl⟩ <;>
    first
      | exact check_closet_eval_err _ ids msg hne rfl
      | rw [check_bio_eq_closet]; exact check_closet_eval_err _ ids msg hne rfl
      | rw [check_offer_eq_closet]; exact check_closet_eval_err _ ids msg hne rfl
      | rw [check_wishlist_eq_closet]; exact check_closet_eval_err _ ids msg hne rfl

/-- Witness for the amended C2 statement at a concrete input. -/
theorem storage_failure_swallowed_witness :
    (["u1"] : List String) ≠ [] ∧
    (check_users_closet_completion (fun _ => Except.error "db down") ["u1"]
        = ⟨["u1"].map (fun uid => (uid, false)), [["u1"]]⟩
    ∧ check_users_bio_completion (fun _ => Except.error "db down") ["u1"]
        = ⟨["u1"].map (fun uid => (uid, false)), [["u1"]]⟩
    ∧ check_users_offer_completion (fun _ => Except.error "db down") ["u1"]
        = ⟨["u1"].map (fun uid => (uid, false)), [["u1"]]⟩
    ∧ check_users_wishlist_completion (fun _ => Except.error "db down") ["u1"]
        = ⟨["u1"].map (fun uid => (uid, false)), [["u1"]]⟩
    ∧ get_new_users_in_window (Except.error "db down") = []) :=
  ⟨by decide, storage_failure_swallowed ["u1"] "db down" (by decide)⟩

/-- Taking first components of a key-value pairing recovers the keys. -/
theorem map_fst_pairing {α β : Type} (g : α → β) (l : List α) :
    (l.map (fun a => (a, g a))).map Prod.fst = l := by
  induction l with
  | nil => rfl
  | cons a l ih => simp [ih]

/-- The key list of a completion map is exactly the input id list. -/
theorem completion_keys (db : IdQuery) (ids : List String) (h : ids.isEmpty = false) :
    (check_users_closet_completion db ids).completion_map.map Prod.fst = ids := by
  cases hdb : db ids with
  | ok rows =>
      rw [check_closet_eval_ok db ids rows h hdb]
      exact map_fst_pairing _ ids
  | error msg =>
      rw [check_closet_eval_err db ids msg h hdb]
      exact map_fst_pairing _ ids

/-- Input ids absent from a successful query's result set are classified
false. -/
theorem completion_absent_false (db : IdQuery) (ids rows : List String) (uid : String)
    (h : ids.isEmpty = false) (hdb : db ids = Except.ok rows) (hmem : uid ∈ ids)
    (habs : uid ∉ rows) :
    (uid, false) ∈ (check_users_closet_completion db ids).completion_map := by
  rw [check_closet_eval_ok db ids rows h hdb]
  have hc : rows.contains uid = false := by
    rw [Bool.eq_false_iff]
    intro hcc
    exact habs (contains_iff_mem.mp hcc)
  exact List.mem_map.mpr ⟨uid, hmem, by rw [hc]⟩

/-- C3: for every non-empty id list, each of the four completion evaluators
returns a map whose key list is exactly the input list (one boolean per id,
none missing, none extra), with every id absent from the storage result
classified false; on the empty input each evaluator returns the empty map
and issues no storage query (empty instrumentation trace). -/
theorem predicate_evaluator_totality (dbc dbb dbo dbw : IdQuery) (ids : List String)
    (h : ids ≠ []) :
    ((check_users_closet_completion dbc ids).completion_map.map Prod.fst = ids
      ∧ ∀ rows, dbc ids = Except.ok rows → ∀ uid ∈ ids, uid ∉ rows →
          (uid, false) ∈ (check_users_closet_completion dbc ids).completion_map)
    ∧ ((check_users_bio_completion dbb ids).completion_map.map Prod.fst = ids
      ∧ ∀ rows, dbb ids = Except.ok rows → ∀ uid ∈ ids, uid ∉ rows →
          (uid, false) ∈ (check_users_bio_completion dbb ids).completion_map)
    ∧ ((check_users_offer_completion dbo ids).completion_map.map Prod.fst = ids
      ∧ ∀ rows, dbo ids = Except.ok rows → ∀ uid ∈ ids, uid ∉ rows →
          (uid, false) ∈ (check_users_offer_completion dbo ids).completion_map)
    ∧ ((check_users_wishlist_completion dbw ids).completion_map.map Prod.fst = ids
      ∧ ∀ rows, dbw ids = Except.ok rows → ∀ uid ∈ ids, uid ∉ rows →
          (uid, false) ∈ (check_users_wishlist_completion dbw ids).completion_map)
    ∧ (check_users_closet_completion dbc [] = ⟨[], []⟩
      ∧ check_users_bio_completion dbb [] = ⟨[], []⟩
      ∧ check_users_offer_completion dbo [] = ⟨[], []⟩
      ∧ check_users_wishlist_completion dbw [] = ⟨[], []⟩) := by
  have hne : ids.isEmpty = false := by
    rw [List.isEmpty_eq_false]
    exact h
  refine ⟨⟨completion_keys dbc ids hne,
      fun rows hdb uid hm ha => completion_absent_false dbc ids rows uid hne hdb hm ha⟩,
    ?_, ?_, ?_, rfl, rfl, rfl, rfl⟩
  · rw [check_bio_eq_closet]
    exact ⟨completion_keys dbb ids hne,
      fun rows hdb uid hm ha => completion_absent_false dbb ids rows uid hne hdb hm ha⟩
  · rw [check_offer_eq_closet]
    exact ⟨completion_keys dbo ids hne,
      fun rows hdb uid hm ha => completion_absent_false dbo ids rows uid hne hdb hm ha⟩
  · rw [check_wishlist_eq_closet]
    exact ⟨completion_keys dbw ids hne,
      fun rows hdb uid hm ha => completion_absent_false dbw ids rows uid hne hdb hm ha⟩

/-- Witness for C3 at a concrete input. -/
theorem predicate_evaluator_totality_witness :
    (["u1"] : List String) ≠ [] ∧
    (((check_users_closet_completion emptyOkDb.closet ["u1"]).completion_map.map Prod.fst = ["u1"]
      ∧ ∀ rows, emptyOkDb.closet ["u1"] = Except.ok rows → ∀ uid ∈ ["u1"], uid ∉ rows →
          (uid, false) ∈ (check_users_closet_completion emptyOkDb.closet ["u1"]).completion_map)
    ∧ ((check_users_bio_completion emptyOkDb.bio ["u1"]).completion_map.map Prod.fst = ["u1"]
      ∧ ∀ rows, emptyOkDb.bio ["u1"] = Except.ok rows → ∀ uid ∈ ["u1"], uid ∉ rows →
          (uid, false) ∈ (check_users_bio_completion emptyOkDb.bio ["u1"]).completion_map)
    ∧ ((check_users_offer_completion emptyOkDb.offer ["u1"]).completion_map.map Prod.fst = ["u1"]
      ∧ ∀ rows, emptyOkDb.offer ["u1"] = Except.ok rows → ∀ uid ∈ ["u1"], uid ∉ rows →
          (uid, false) ∈ (check_users_offer_completion emptyOkDb.offer ["u1"]).completion_map)
    ∧ ((check_users_wishlist_completion emptyOkDb.wishlist ["u1"]).completion_map.map
          Prod.fst = ["u1"]
      ∧ ∀ rows, emptyOkDb.wishlist ["u1"] = Except.ok rows → ∀ uid ∈ ["u1"], uid ∉ rows →
          (uid, false) ∈ (check_users_wishlist_completion emptyOkDb.wishlist ["u1"]).completion_map)
    ∧ (check_users_closet_completion emptyOkDb.closet [] = ⟨[], []⟩
      ∧ check_users_bio_completion emptyOkDb.bio [] = ⟨[], []⟩
      ∧ check_users_offer_completion emptyOkDb.offer [] = ⟨[], []⟩
      ∧ check_users_wishlist_completion emptyOkDb.wishlist [] = ⟨[], []⟩)) :=
  ⟨by decide, predicate_evaluator_totality emptyOkDb.closet emptyOkDb.bio emptyOkDb.offer
    emptyOkDb.wishlist ["u1"] (by decide)⟩

/-- C10: the last step extracts every remaining user (each tagged level 5),
so whenever every user record carries a non-empty user_id — no matter the
predicate outcomes — the final residual returned by the waterfall is
empty. -/
theorem level5_extracts_all_residual_empty (db : WaterfallDB) (fb : FallbackDB)
    (rem base : List User)
    (hrem : ∀ u ∈ rem, u.user_id ≠ "") (hbase : ∀ u ∈ base, u.user_id ≠ "") :
    (extract_level_5_new_stars fb rem).1.map User.user_id = rem.map User.user_id
    ∧ (∀ v ∈ (extract_level_5_new_stars fb rem).1, v.new_user_level = some 5)
    ∧ (extract_level_5_new_stars fb rem).2 = []
    ∧ (run_waterfall db base).final_remaining = [] := by
  obtain ⟨f5, he5, hf5⟩ := extract_level_5_fst_shape fb rem
  refine ⟨?_, ?_, ?_, ?_⟩
  · rw [he5, List.map_map]
    exact List.map_congr_left (fun u _ => hf5 u)
  · intro v hv
    rw [extract_level_5_new_stars] at hv
    by_cases h : rem.isEmpty = true
    · rw [if_pos h] at hv
      simp at hv
    · rw [if_neg h] at hv
      obtain ⟨u, hu, rfl⟩ := List.mem_map.mp hv
      rfl
  · rw [extract_level_5_snd, he5]
    exact compare_and_remove_map_self rem f5 hf5 hrem
  · have hsub1 : List.Sublist (extract_level_1_no_shoes db.closet base).2 base := by
      rw [extract_level_1_snd]
      exact compare_and_remove_sublist _ _
    set r1 := (extract_level_1_no_shoes db.closet base).2
    have hsub2 : List.Sublist (extract_level_2_no_bio db.bio r1).2 r1 := by
      rw [extract_level_2_snd]
      exact compare_and_remove_sublist _ _
    set r2 := (extract_level_2_no_bio db.bio r1).2
    have hsub3 : List.Sublist (extract_level_3_no_offers db.offer db.fb r2).2 r2 := by
      rw [extract_level_3_snd]
      exact compare_and_remove_sublist _ _
    set r3 := (extract_level_3_no_offers db.offer db.fb r2).2
    have hsub4 : List.Sublist (extract_level_4_no_wishlist db.wishlist db.fb r3).2 r3 := by
      rw [extract_level_4_snd]
      exact compare_and_remove_sublist _ _
    set r4 := (extract_level_4_no_wishlist db.wishlist db.fb r3).2
    have hne4 : ∀ u ∈ r4, u.user_id ≠ "" := fun u hu =>
      hbase u (hsub1.subset (hsub2.subset (hsub3.subset (hsub4.subset hu))))
    obtain ⟨g5, hge5, hgf5⟩ := extract_level_5_fst_shape db.fb r4
    have hfr : (run_waterfall db base).final_remaining
        = (extract_level_5_new_stars db.fb r4).2 := rfl
    rw [hfr, extract_level_5_snd, hge5]
    exact compare_and_remove_map_self r4 g5 hgf5 hne4

/-- Witness for C10 at a concrete input. -/
theorem level5_extracts_all_residual_empty_witness :
    (extract_level_5_new_stars allErrFallback [{ user_id := "u1" }]).1.map User.user_id
        = ([{ user_id := "u1" }] : List User).map User.user_id
    ∧ (∀ v ∈ (extract_level_5_new_stars allErrFallback [{ user_id := "u1" }]).1,
        v.new_user_level = some 5)
    ∧ (extract_level_5_new_stars allErrFallback [{ user_id := "u1" }]).2 = []
    ∧ (run_waterfall emptyOkDb [{ user_id := "u2" }]).final_remaining = [] :=
  level5_extracts_all_residual_empty emptyOkDb allErrFallback [{ user_id := "u1" }]
    [{ user_id := "u2" }] (by decide) (by decide)

/-- Witness for C1 at a concrete input. -/
theorem waterfall_partition_witness :
    id_occurrences (run_waterfall emptyOkDb [{ user_id := "u1" }, { user_id := "u2" }]) "u1"
      = 1 :=
  waterfall_partition emptyOkDb [{ user_id := "u1" }, { user_id := "u2" }]
    (by decide) (by decide) "u1" (by decide)

/-- The adjacent-pairs loop decides exactly chain-wise non-increase. -/
theorem monotonic_check_iff (l : List Nat) :
    monotonic_check l = true ↔ List.Chain' (fun a b => b ≤ a) l := by
  induction l with
  | nil => simp [monotonic_check]
  | cons a l ih =>
      cases l with
      | nil => simp [monotonic_check]
      | cons b rest =>
          simp only [monotonic_check, Bool.and_eq_true, decide_eq_true_eq,
            List.chain'_cons, ih]

/-- Once the flag is false the disjointness loop stays false. -/
theorem disjoint_check_false (l : List (String × LevelData)) (seen : List String) :
    disjoint_check seen false l = false := by
  induction l generalizing seen with
  | nil => rfl
  | cons p rest ih =>
      obtain ⟨k, data⟩ := p
      rw [disjoint_check]
      split
      · exact ih seen
      · exact ih _

/-- The disjointness loop passes exactly when every level's ids avoid the
seed set and the levels are pairwise id-disjoint. -/
theorem disjoint_check_true_iff (l : List (String × LevelData)) (seen : List String) :
    disjoint_check seen true l = true ↔
      (∀ pd ∈ l, ∀ uid ∈ pd.2.extracted_users.map User.user_id, uid ∉ seen)
      ∧ List.Pairwise (fun a b => ∀ uid,
          uid ∈ a.2.extracted_users.map User.user_id →
            uid ∉ b.2.extracted_users.map User.user_id) l := by
  induction l generalizing seen with
  | nil => simp [disjoint_check]
  | cons p rest ih =>
      obtain ⟨k, data⟩ := p
      rw [disjoint_check]
      by_cases hov : (data.extracted_users.map User.user_id).any (fun i => seen.contains i)
        = true
      · rw [if_pos hov, disjoint_check_false]
        constructor
        · intro hfalse
          simp at hfalse
        · rintro ⟨hall, _⟩
          exfalso
          obtain ⟨uid, hmemids, hcont⟩ := List.any_eq_true.mp hov
          exact hall (k, data) (List.mem_cons_self _ _) uid hmemids
            (contains_iff_mem.mp hcont)
      · rw [if_neg hov, ih]
        have hno : ∀ uid ∈ data.extracted_users.map User.user_id, uid ∉ seen := by
          intro uid hm hs
          exact hov (List.any_eq_true.mpr ⟨uid, hm, contains_iff_mem.mpr hs⟩)
        constructor
        · rintro ⟨hall, hpw⟩
          refine ⟨?_, List.pairwise_cons.mpr ⟨?_, hpw⟩⟩
          · intro pd hpd uid hm
            rcases List.mem_cons.mp hpd with rfl | hpd'
            · exact hno uid hm
            · intro hs
              exact hall pd hpd' uid hm (List.mem_append.mpr (Or.inl hs))
          · intro b hb uid hmd hmb
            exact hall b hb uid hmb (List.mem_append.mpr (Or.inr hmd))
        · rintro ⟨hall, hpw⟩
          rcases List.pairwise_cons.mp hpw with ⟨hhead, htail⟩
          refine ⟨?_, htail⟩
          intro pd hpd uid hm hs
          rcases List.mem_append.mp hs with hseen | hdata
          · exact hall pd (List.mem_cons_of_mem _ hpd) uid hm hseen
          · exact hhead pd hpd uid hdata hm

/-- C4: `validate_waterfall_integrity` returns true exactly when its input
satisfies the three spec properties: the remaining-count sequence is
non-increasing, the initial count equals the sum of the per-step extracted
counts plus the residual size, and no user id occurs in more than one
step's extracted list. -/
theorem validate_waterfall_integrity_iff (r : ExtractionResults) :
    validate_waterfall_integrity r = true ↔ SpecMonotonic r ∧ SpecCoverage r ∧ SpecDisjoint r := by
  show (monotonic_check (r.initial_count :: r.extractions.map (fun p => p.2.remaining_after))
      && (r.initial_count == (r.extractions.map (fun p => p.2.extracted_count)).sum
            + r.final_remaining.length)
      && disjoint_check [] true r.extractions) = true
    ↔ SpecMonotonic r ∧ SpecCoverage r ∧ SpecDisjoint r
  simp only [Bool.and_eq_true, beq_iff_eq, monotonic_check_iff, disjoint_check_true_iff]
  unfold SpecMonotonic SpecCoverage SpecDisjoint
  constructor
  · rintro ⟨⟨hm, hc⟩, _, hd⟩
    exact ⟨hm, hc, hd⟩
  · rintro ⟨hm, hc, hd⟩
    exact ⟨⟨hm, hc⟩, fun pd _ uid _ hs => List.not_mem_nil uid hs, hd⟩

/-- The trace of a fallback block is exactly the list of users still absent
from the dict (empty when nobody needed the fallback, in which case the
query is skipped). -/
theorem fallback_stage_queried (query : ShoeQuery) (uids : List String)
    (ts : List (String × ShoeRow)) :
    (fallback_stage query uids ts).2 = uids.filter (fun uid => !(hasKey ts uid)) := by
  rw [fallback_stage]
  split
  · rename_i h
    exact (List.isEmpty_iff.mp h).symm
  · cases query (uids.filter (fun uid => !(hasKey ts uid))) <;> rfl

/-- Case analysis on the dict a fallback block returns: skipped, successful
query folded in, or raised query leaving the dict unchanged. -/
theorem fallback_stage_fst_cases (query : ShoeQuery) (uids : List String)
    (ts : List (String × ShoeRow)) :
    ((uids.filter (fun uid => !(hasKey ts uid))).isEmpty = true
        ∧ (fallback_stage query uids ts).1 = ts)
    ∨ (∃ rows, query (uids.filter (fun uid => !(hasKey ts uid))) = Except.ok rows
        ∧ (fallback_stage query uids ts).1 = insertRows ts rows)
    ∨ (∃ msg, query (uids.filter (fun uid => !(hasKey ts uid))) = Except.error msg
        ∧ (fallback_stage query uids ts).1 = ts) := by
  rw [fallback_stage]
  split
  · rename_i h
    exact Or.inl ⟨h, rfl⟩
  · cases hq : query (uids.filter (fun uid => !(hasKey ts uid))) with
    | ok rows => exact Or.inr (Or.inl ⟨rows, rfl, rfl⟩)
    | error msg => exact Or.inr (Or.inr ⟨msg, rfl, rfl⟩)

/-- A user already in the dict stays in the dict through a fallback block. -/
theorem hasKey_fallback_stage_mono (query : ShoeQuery) (uids : List String)
    (ts : List (String × ShoeRow)) (u : String) (h : hasKey ts u = true) :
    hasKey (fallback_stage query uids ts).1 u = true := by
  rcases fallback_stage_fst_cases query uids ts with ⟨_, he⟩ | ⟨rows, _, he⟩ | ⟨msg, _, he⟩
  · rw [he]; exact h
  · rw [he]; exact (hasKey_insertRows_iff ts rows u).mpr (Or.inr h)
  · rw [he]; exact h

/-- Contrapositive of monotonicity. -/
theorem hasKey_fallback_stage_mono_contra (query : ShoeQuery) (uids : List String)
    (ts : List (String × ShoeRow)) (u : String)
    (h : hasKey (fallback_stage query uids ts).1 u = false) : hasKey ts u = false := by
  cases hk : hasKey ts u with
  | false => rfl
  | true =>
      rw [hasKey_fallback_stage_mono query uids ts u hk] at h
      simp at h

/-- A fallback block whose query only returns rows for the users it was
asked about preserves the dict entry of an already-resolved user. -/
theorem dlookup_fallback_stage_preserved (query : ShoeQuery) (uids : List String)
    (ts : List (String × ShoeRow)) (u : String) (r : ShoeRow)
    (hwf : ∀ qs rows, query qs = Except.ok rows → ∀ row ∈ rows, row.user_id ∈ qs)
    (hres : dlookup ts u = some r) :
    dlookup (fallback_stage query uids ts).1 u = some r := by
  rcases fallback_stage_fst_cases query uids ts with ⟨_, he⟩ | ⟨rows, hq, he⟩ | ⟨msg, _, he⟩
  · rw [he]; exact hres
  · rw [he]
    rw [dlookup_insertRows_of_forall_ne]
    · exact hres
    · intro row hrow heq
      have hmem := hwf _ _ hq row hrow
      rw [heq] at hmem
      have h2 := (List.mem_filter.mp hmem).2
      rw [Bool.not_eq_true'] at h2
      rw [hasKey, hres] at h2
      simp at h2
  · rw [he]; exact hres

/-- Membership in a fallback's "users needing" list means: an input user not
yet in the dict. -/
theorem mem_needing_iff (uids : List String) (ts : List (String × ShoeRow)) (v : String) :
    v ∈ uids.filter (fun uid => !(hasKey ts uid)) ↔ v ∈ uids ∧ hasKey ts v = false := by
  simp [List.mem_filter, Bool.not_eq_true']

/-- C5: a user whose primary (desired-item) query returns a row is resolved
with exactly that row — the offer/wishlist/comprehensive fallbacks never
overwrite it (primary beats secondary) and never query that user — and each
fallback query is issued only for users left unresolved by all earlier
tiers.  The row-scoping hypotheses record what the SQL WHERE clauses
guarantee: a fallback only returns rows for the user ids bound into it. -/
theorem enrichment_fallback_order (fb : FallbackDB) (user_ids : List String) (u : String)
    (prows : List ShoeRow) (r0 : ShoeRow)
    (hwf2 : ∀ qs rows, fb.secondary qs = Except.ok rows → ∀ row ∈ rows, row.user_id ∈ qs)
    (hwf3 : ∀ qs rows, fb.tertiary qs = Except.ok rows → ∀ row ∈ rows, row.user_id ∈ qs)
    (hwf4 : ∀ qs rows, fb.quaternary qs = Except.ok rows → ∀ row ∈ rows, row.user_id ∈ qs)
    (hu : u ∈ user_ids)
    (hp : fb.primary user_ids = Except.ok prows)
    (hr : prows.filter (fun row => row.user_id == u) = [r0]) :
    dlookup (get_top_target_shoe_for_users fb user_ids).target_shoes u = some r0
    ∧ u ∉ (get_top_target_shoe_for_users fb user_ids).secondary_queried
    ∧ u ∉ (get_top_target_shoe_for_users fb user_ids).tertiary_queried
    ∧ u ∉ (get_top_target_shoe_for_users fb user_ids).quaternary_queried
    ∧ (∀ v ∈ (get_top_target_shoe_for_users fb user_ids).secondary_queried,
        v ∈ user_ids ∧ ¬ ∃ row ∈ prows, row.user_id = v)
    ∧ (∀ v ∈ (get_top_target_shoe_for_users fb user_ids).tertiary_queried,
        v ∈ (get_top_target_shoe_for_users fb user_ids).secondary_queried
        ∧ ∀ srows,
            fb.secondary (get_top_target_shoe_for_users fb user_ids).secondary_queried
              = Except.ok srows → ¬ ∃ row ∈ srows, row.user_id = v)
    ∧ (∀ v ∈ (get_top_target_shoe_for_users fb user_ids).quaternary_queried,
        v ∈ (get_top_target_shoe_for_users fb user_ids).tertiary_queried
        ∧ ∀ trows,
            fb.tertiary (get_top_target_shoe_for_users fb user_ids).tertiary_queried
              = Except.ok trows → ¬ ∃ row ∈ trows, row.user_id = v) := by
  have hne : user_ids.isEmpty = false := by
    rw [List.isEmpty_eq_false]
    exact List.ne_nil_of_mem hu
  have hcond : ¬(user_ids.isEmpty = true) := by simp [hne]
  have e1 : (get_top_target_shoe_for_users fb user_ids).target_shoes
      = (fallback_stage fb.quaternary user_ids
          (fallback_stage fb.tertiary user_ids
            (fallback_stage fb.secondary user_ids (insertRows [] prows)).1).1).1 := by
    rw [get_top_target_shoe_for_users, if_neg hcond, hp]
  have e2 : (get_top_target_shoe_for_users fb user_ids).secondary_queried
      = (fallback_stage fb.secondary user_ids (insertRows [] prows)).2 := by
    rw [get_top_target_shoe_for_users, if_neg hcond, hp]
  have e3 : (get_top_target_shoe_for_users fb user_ids).tertiary_queried
      = (fallback_stage fb.tertiary user_ids
          (fallback_stage fb.secondary user_ids (insertRows [] prows)).1).2 := by
    rw [get_top_target_shoe_for_users, if_neg hcond, hp]
  have e4 : (get_top_target_shoe_for_users fb user_ids).quaternary_queried
      = (fallback_stage fb.quaternary user_ids
          (fallback_stage fb.tertiary user_ids
            (fallback_stage fb.secondary user_ids (insertRows [] prows)).1).1).2 := by
    rw [get_top_target_shoe_for_users, if_neg hcond, hp]
  rw [e1, e2, e3, e4]
  set ts0 := insertRows [] prows with hts0
  set s1 := (fallback_stage fb.secondary user_ids ts0).1 with hs1
  set t1 := (fallback_stage fb.tertiary user_ids s1).1 with ht1
  have hl0 : dlookup ts0 u = some r0 := by
    rw [hts0]
    exact dlookup_insertRows_single [] prows u r0 hr
  have hk0 : hasKey ts0 u = true := by rw [hasKey, hl0]; rfl
  have hl1 : dlookup s1 u = some r0 := by
    rw [hs1]
    exact dlookup_fallback_stage_preserved _ _ _ _ _ hwf2 hl0
  have hk1 : hasKey s1 u = true := by rw [hasKey, hl1]; rfl
  have hl2 : dlookup t1 u = some r0 := by
    rw [ht1]
    exact dlookup_fallback_stage_preserved _ _ _ _ _ hwf3 hl1
  have hk2 : hasKey t1 u = true := by rw [hasKey, hl2]; rfl
  have hl3 : dlookup (fallback_stage fb.quaternary user_ids t1).1 u = some r0 :=
    dlookup_fallback_stage_preserved _ _ _ _ _ hwf4 hl2
  simp only [fallback_stage_queried]
  refine ⟨hl3, ?_, ?_, ?_, ?_, ?_, ?_⟩
  · intro hmem
    obtain ⟨-, hfalse⟩ := (mem_needing_iff user_ids ts0 u).mp hmem
    rw [hk0] at hfalse
    simp at hfalse
  · intro hmem
    obtain ⟨-, hfalse⟩ := (mem_needing_iff user_ids s1 u).mp hmem
    rw [hk1] at hfalse
    simp at hfalse
  · intro hmem
    obtain ⟨-, hfalse⟩ := (mem_needing_iff user_ids t1 u).mp hmem
    rw [hk2] at hfalse
    simp at hfalse
  · intro v hv
    obtain ⟨hvu, hkv⟩ := (mem_needing_iff user_ids ts0 v).mp hv
    refine ⟨hvu, ?_⟩
    rintro ⟨row, hrow, hid⟩
    have hkey : hasKey ts0 v = true := by
      rw [hts0]
      exact (hasKey_insertRows_iff [] prows v).mpr (Or.inl ⟨row, hrow, hid⟩)
    rw [hkey] at hkv
    simp at hkv
  · intro v hv
    obtain ⟨hvu, hkv1⟩ := (mem_needing_iff user_ids s1 v).mp hv
    have hkv0 : hasKey ts0 v = false := by
      rw [hs1] at hkv1
      exact hasKey_fallback_stage_mono_contra _ _ _ _ hkv1
    refine ⟨(mem_needing_iff user_ids ts0 v).mpr ⟨hvu, hkv0⟩, ?_⟩
    intro srows hok
    rintro ⟨row, hrow, hid⟩
    rcases fallback_stage_fst_cases fb.secondary user_ids ts0 with
      ⟨hemp, he⟩ | ⟨rows, hq, he⟩ | ⟨msg, hqe, he⟩
    · have hmem := hwf2 _ _ hok row hrow
      rw [List.isEmpty_iff.mp hemp] at hmem
      simp at hmem
    · rw [hq] at hok
      injection hok with hrs
      subst hrs
      have hkey : hasKey s1 v = true := by
        rw [hs1, he]
        exact (hasKey_insertRows_iff ts0 rows v).mpr (Or.inl ⟨row, hrow, hid⟩)
      rw [hkey] at hkv1
      simp at hkv1
    · rw [hqe] at hok
      simp at hok
  · intro v hv
    obtain ⟨hvu, hkv2⟩ := (mem_needing_iff user_ids t1 v).mp hv
    have hkv1 : hasKey s1 v = false := by
      rw [ht1] at hkv2
      exact hasKey_fallback_stage_mono_contra _ _ _ _ hkv2
    refine ⟨(mem_needing_iff user_ids s1 v).mpr ⟨hvu, hkv1⟩, ?_⟩
    intro trows hok
    rintro ⟨row, hrow, hid⟩
    rcases fallback_stage_fst_cases fb.tertiary user_ids s1 with
      ⟨hemp, he⟩ | ⟨rows, hq, he⟩ | ⟨msg, hqe, he⟩
    · have hmem := hwf3 _ _ hok row hrow
      rw [List.isEmpty_iff.mp hemp] at hmem
      simp at hmem
    · rw [hq] at hok
      injection hok with hrs
      subst hrs
      have hkey : hasKey t1 v = true := by
        rw [ht1, he]
        exact (hasKey_insertRows_iff s1 rows v).mpr (Or.inl ⟨row, hrow, hid⟩)
      rw [hkey] at hkv2
      simp at hkv2
    · rw [hqe] at hok
      simp at hok

/-- Witness for C5 at a concrete input: user u1 has both a desired-item row
(primary) and an offer-target row (secondary) in `c5Fb`; the desired-item
row wins. -/
theorem enrichment_fallback_order_witness :
    dlookup (get_top_target_shoe_for_users c5Fb ["u1", "u2"]).target_shoes "u1"
        = some ⟨"u1", "v1", "Shoe A", "desired_item"⟩
    ∧ "u1" ∉ (get_top_target_shoe_for_users c5Fb ["u1", "u2"]).secondary_queried
    ∧ "u1" ∉ (get_top_target_shoe_for_users c5Fb ["u1", "u2"]).tertiary_queried
    ∧ "u1" ∉ (get_top_target_shoe_for_users c5Fb ["u1", "u2"]).quaternary_queried
    ∧ (∀ v ∈ (get_top_target_shoe_for_users c5Fb ["u1", "u2"]).secondary_queried,
        v ∈ ["u1", "u2"]
        ∧ ¬ ∃ row ∈ [(⟨"u1", "v1", "Shoe A", "desired_item"⟩ : ShoeRow)], row.user_id = v)
    ∧ (∀ v ∈ (get_top_target_shoe_for_users c5Fb ["u1", "u2"]).tertiary_queried,
        v ∈ (get_top_target_shoe_for_users c5Fb ["u1", "u2"]).secondary_queried
        ∧ ∀ srows,
            c5Fb.secondary (get_top_target_shoe_for_users c5Fb ["u1", "u2"]).secondary_queried
              = Except.ok srows → ¬ ∃ row ∈ srows, row.user_id = v)
    ∧ (∀ v ∈ (get_top_target_shoe_for_users c5Fb ["u1", "u2"]).quaternary_queried,
        v ∈ (get_top_target_shoe_for_users c5Fb ["u1", "u2"]).tertiary_queried
        ∧ ∀ trows,
            c5Fb.tertiary (get_top_target_shoe_for_users c5Fb ["u1", "u2"]).tertiary_queried
              = Except.ok trows → ¬ ∃ row ∈ trows, row.user_id = v) :=
  enrichment_fallback_order c5Fb ["u1", "u2"] "u1"
    [⟨"u1", "v1", "Shoe A", "desired_item"⟩] ⟨"u1", "v1", "Shoe A", "desired_item"⟩
    (by
      intro qs rows h row hrow
      by_cases hc : qs.contains "u1" = true
      · have hsec : c5Fb.secondary qs
            = Except.ok [⟨"u1", "v2", "Shoe B", "recent_offer"⟩] := by
          simp only [c5Fb]
          rw [if_pos hc]
        rw [hsec] at h
        injection h with h2
        rw [← h2] at hrow
        obtain rfl := List.mem_singleton.mp hrow
        exact contains_iff_mem.mp hc
      · have hsec : c5Fb.secondary qs = Except.ok [] := by
          simp only [c5Fb]
          rw [if_neg hc]
        rw [hsec] at h
        injection h with h2
        rw [← h2] at hrow
        simp at hrow)
    (by
      intro qs rows h row hrow
      have hsec : c5Fb.tertiary qs = Except.ok [] := rfl
      rw [hsec] at h
      injection h with h2
      rw [← h2] at hrow
      simp at hrow)
    (by
      intro qs rows h row hrow
      have hsec : c5Fb.quaternary qs = Except.ok [] := rfl
      rw [hsec] at h
      injection h with h2
      rw [← h2] at hrow
      simp at hrow)
    (by decide) rfl (by decide)

/-- Mapping an id-preserving function commutes with the truthy-id filter,
as far as the extracted id list is concerned. -/
theorem filter_map_ids (l : List User) (f : User → User)
    (hf : ∀ u, (f u).user_id = u.user_id) :
    ((l.map f).filter (fun v => v.user_id != "")).map User.user_id
      = (l.filter (fun v => v.user_id != "")).map User.user_id := by
  induction l with
  | nil => rfl
  | cons a l ih =>
      by_cases ha : (a.user_id != "") = true
      · have hfa : ((f a).user_id != "") = true := by rw [hf a]; exact ha
        rw [List.map_cons, List.filter_cons, List.filter_cons, if_pos hfa, if_pos ha,
          List.map_cons, List.map_cons, hf a, ih]
      · have hfa : ¬(((f a).user_id != "") = true) := by rw [hf a]; exact ha
        rw [List.map_cons, List.filter_cons, List.filter_cons, if_neg hfa, if_neg ha, ih]

/-- The set-difference step only looks at the ids of the extracted users, so
two id-preserving taggings of the same pre-extraction list remove the same
users. -/
theorem compare_and_remove_map_congr (rem pre : List User) (f g : User → User)
    (hf : ∀ u, (f u).user_id = u.user_id) (hg : ∀ u, (g u).user_id = u.user_id) :
    compare_and_remove rem (pre.map f) = compare_and_remove rem (pre.map g) := by
  rw [compare_and_remove, compare_and_remove]
  by_cases h1 : rem.isEmpty = true
  · rw [if_pos h1, if_pos h1]
  · rw [if_neg h1, if_neg h1]
    by_cases h2 : pre.isEmpty = true
    · have hnil : pre = [] := List.isEmpty_iff.mp h2
      subst hnil
      rfl
    · have hne : pre ≠ [] := fun hh => h2 (by rw [hh]; rfl)
      have hf2 : ¬((pre.map f).isEmpty = true) := by
        rw [List.isEmpty_iff, List.map_eq_nil_iff]
        exact hne
      have hg2 : ¬((pre.map g).isEmpty = true) := by
        rw [List.isEmpty_iff, List.map_eq_nil_iff]
        exact hne
      rw [if_neg hf2, if_neg hg2, filter_map_ids pre f hf, filter_map_ids pre g hg]

/-- Level 3 is insensitive to the enrichment storage: the extracted ids and
the remaining pool do not depend on it, extracted users always keep their
tier tag, and a user absent from the enrichment dict gets empty enrichment
fields. -/
theorem extract_level_3_enrichment (odb : IdQuery) (fb fb' : FallbackDB) (rem : List User) :
    (extract_level_3_no_offers odb fb rem).1.map User.user_id
        = (extract_level_3_no_offers odb fb' rem).1.map User.user_id
    ∧ (extract_level_3_no_offers odb fb rem).2 = (extract_level_3_no_offers odb fb' rem).2
    ∧ ∀ v ∈ (extract_level_3_no_offers odb fb rem).1,
        v.new_user_level = some 3
        ∧ (dlookup (get_top_target_shoe_for_users fb
              ((extract_level_3_no_offers odb fb rem).1.map User.user_id)).target_shoes
            v.user_id = none → v.top_target_shoe = none ∧ v.target_variantID = none) := by
  by_cases hrem : rem.isEmpty = true
  · have hE : extract_level_3_no_offers odb fb rem = ([], []) := by
      rw [extract_level_3_no_offers, if_pos hrem]
    have hE' : extract_level_3_no_offers odb fb' rem = ([], []) := by
      rw [extract_level_3_no_offers, if_pos hrem]
    rw [hE, hE']
    refine ⟨rfl, rfl, ?_⟩
    intro v hv
    simp at hv
  · set pre := rem.filter (fun u =>
      (((check_users_offer_completion odb (rem.map User.user_id)).completion_map.filter
          (fun q => !q.2)).map Prod.fst).contains u.user_id) with hpre
    set ts := (get_top_target_shoe_for_users fb (pre.map User.user_id)).target_shoes with hts
    set ts' := (get_top_target_shoe_for_users fb' (pre.map User.user_id)).target_shoes with hts2
    set F := (fun u : User =>
      { u with
          new_user_level := some 3,
          top_target_shoe := (dlookup ts u.user_id).map ShoeRow.product_name,
          target_variantID := (dlookup ts u.user_id).map ShoeRow.product_variant_id }) with hF
    set F' := (fun u : User =>
      { u with
          new_user_level := some 3,
          top_target_shoe := (dlookup ts' u.user_id).map ShoeRow.product_name,
          target_variantID := (dlookup ts' u.user_id).map ShoeRow.product_variant_id }) with hF2
    have hE : extract_level_3_no_offers odb fb rem
        = (pre.map F, compare_and_remove rem (pre.map F)) := by
      rw [extract_level_3_no_offers, if_neg hrem]
    have hE' : extract_level_3_no_offers odb fb' rem
        = (pre.map F', compare_and_remove rem (pre.map F')) := by
      rw [extract_level_3_no_offers, if_neg hrem]
    have hids : (extract_level_3_no_offers odb fb rem).1.map User.user_id
        = pre.map User.user_id := by
      rw [hE, List.map_map]
      exact List.map_congr_left (fun u _ => rfl)
    refine ⟨?_, ?_, ?_⟩
    · rw [hids, hE', List.map_map]
      exact (List.map_congr_left (fun u _ => rfl)).symm
    · rw [hE, hE']
      exact compare_and_remove_map_congr rem pre F F' (fun u => rfl) (fun u => rfl)
    · intro v hv
      rw [hids]
      rw [hE] at hv
      obtain ⟨u, hu, rfl⟩ := List.mem_map.mp hv
      refine ⟨rfl, ?_⟩
      intro hnone
      have hnone' : dlookup ts u.user_id = none := hnone
      constructor
      · show (dlookup ts u.user_id).map ShoeRow.product_name = none
        rw [hnone']
        rfl
      · show (dlookup ts u.user_id).map ShoeRow.product_variant_id = none
        rw [hnone']
        rfl

/-- Level 4 analogue of `extract_level_3_enrichment`. -/
theorem extract_level_4_enrichment (wdb : IdQuery) (fb fb' : FallbackDB) (rem : List User) :
    (extract_level_4_no_wishlist wdb fb rem).1.map User.user_id
        = (extract_level_4_no_wishlist wdb fb' rem).1.map User.user_id
    ∧ (extract_level_4_no_wishlist wdb fb rem).2 = (extract_level_4_no_wishlist wdb fb' rem).2
    ∧ ∀ v ∈ (extract_level_4_no_wishlist wdb fb rem).1,
        v.new_user_level = some 4
        ∧ (dlookup (get_top_target_shoe_for_users fb
              ((extract_level_4_no_wishlist wdb fb rem).1.map User.user_id)).target_shoes
            v.user_id = none → v.top_target_shoe = none ∧ v.target_variantID = none) := by
  by_cases hrem : rem.isEmpty = true
  · have hE : extract_level_4_no_wishlist wdb fb rem = ([], []) := by
      rw [extract_level_4_no_wishlist, if_pos hrem]
    have hE' : extract_level_4_no_wishlist wdb fb' rem = ([], []) := by
      rw [extract_level_4_no_wishlist, if_pos hrem]
    rw [hE, hE']
    refine ⟨rfl, rfl, ?_⟩
    intro v hv
    simp at hv
  · set pre := rem.filter (fun u =>
      (((check_users_wishlist_completion wdb (rem.map User.user_id)).completion_map.filter
          (fun q => !q.2)).map Prod.fst).contains u.user_id) with hpre
    set ts := (get_top_target_shoe_for_users fb (pre.map User.user_id)).target_shoes with hts
    set ts' := (get_top_target_shoe_for_users fb' (pre.map User.user_id)).target_shoes with hts2
    set F := (fun u : User =>
      { u with
          new_user_level := some 4,
          top_target_shoe := (dlookup ts u.user_id).map ShoeRow.product_name,
          target_variantID := (dlookup ts u.user_id).map ShoeRow.product_variant_id }) with hF
    set F' := (fun u : User =>
      { u with
          new_user_level := some 4,
          top_target_shoe := (dlookup ts' u.user_id).map ShoeRow.product_name,
          target_variantID := (dlookup ts' u.user_id).map ShoeRow.product_variant_id }) with hF2
    have hE : extract_level_4_no_wishlist wdb fb rem
        = (pre.map F, compare_and_remove rem (pre.map F)) := by
      rw [extract_level_4_no_wishlist, if_neg hrem]
    have hE' : extract_level_4_no_wishlist wdb fb' rem
        = (pre.map F', compare_and_remove rem (pre.map F')) := by
      rw [extract_level_4_no_wishlist, if_neg hrem]
    have hids : (extract_level_4_no_wishlist wdb fb rem).1.map User.user_id
        = pre.map User.user_id := by
      rw [hE, List.map_map]
      exact List.map_congr_left (fun u _ => rfl)
    refine ⟨?_, ?_, ?_⟩
    · rw [hids, hE', List.map_map]
      exact (List.map_congr_left (fun u _ => rfl)).symm
    · rw [hE, hE']
      exact compare_and_remove_map_congr rem pre F F' (fun u => rfl) (fun u => rfl)
    · intro v hv
      rw [hids]
      rw [hE] at hv
      obtain ⟨u, hu, rfl⟩ := List.mem_map.mp hv
      refine ⟨rfl, ?_⟩
      intro hnone
      have hnone' : dlookup ts u.user_id = none := hnone
      constructor
      · show (dlookup ts u.user_id).map ShoeRow.product_name = none
        rw [hnone']
        rfl
      · show (dlookup ts u.user_id).map ShoeRow.product_variant_id = none
        rw [hnone']
        rfl

/-- Level 5 analogue of `extract_level_3_enrichment` (the whole pool is
extracted, so no predicate filter is involved). -/
theorem extract_level_5_enrichment (fb fb' : FallbackDB) (rem : List User) :
    (extract_level_5_new_stars fb rem).1.map User.user_id
        = (extract_level_5_new_stars fb' rem).1.map User.user_id
    ∧ (extract_level_5_new_stars fb rem).2 = (extract_level_5_new_stars fb' rem).2
    ∧ ∀ v ∈ (extract_level_5_new_stars fb rem).1,
        v.new_user_level = some 5
        ∧ (dlookup (get_top_target_shoe_for_users fb
              ((extract_level_5_new_stars fb rem).1.map User.user_id)).target_shoes
            v.user_id = none → v.top_target_shoe = none ∧ v.target_variantID = none) := by
  by_cases hrem : rem.isEmpty = true
  · have hE : extract_level_5_new_stars fb rem = ([], []) := by
      rw [extract_level_5_new_stars, if_pos hrem]
    have hE' : extract_level_5_new_stars fb' rem = ([], []) := by
      rw [extract_level_5_new_stars, if_pos hrem]
    rw [hE, hE']
    refine ⟨rfl, rfl, ?_⟩
    intro v hv
    simp at hv
  · set ts := (get_top_target_shoe_for_users fb (rem.map User.user_id)).target_shoes with hts
    set ts' := (get_top_target_shoe_for_users fb' (rem.map User.user_id)).target_shoes with hts2
    set F := (fun u : User =>
      { u with
          new_user_level := some 5,
          top_target_shoe := (dlookup ts u.user_id).map ShoeRow.product_name,
          target_variantID := (dlookup ts u.user_id).map ShoeRow.product_variant_id }) with hF
    set F' := (fun u : User =>
      { u with
          new_user_level := some 5,
          top_target_shoe := (dlookup ts' u.user_id).map ShoeRow.product_name,
          target_variantID := (dlookup ts' u.user_id).map ShoeRow.product_variant_id }) with hF2
    have hE : extract_level_5_new_stars fb rem
        = (rem.map F, compare_and_remove rem (rem.map F)) := by
      rw [extract_level_5_new_stars, if_neg hrem]
    have hE' : extract_level_5_new_stars fb' rem
        = (rem.map F', compare_and_remove rem (rem.map F')) := by
      rw [extract_level_5_new_stars, if_neg hrem]
    have hids : (extract_level_5_new_stars fb rem).1.map User.user_id
        = rem.map User.user_id := by
      rw [hE, List.map_map]
      exact List.map_congr_left (fun u _ => rfl)
    refine ⟨?_, ?_, ?_⟩
    · rw [hids, hE', List.map_map]
      exact (List.map_congr_left (fun u _ => rfl)).symm
    · rw [hE, hE']
      exact compare_and_remove_map_congr rem rem F F' (fun u => rfl) (fun u => rfl)
    · intro v hv
      rw [hids]
      rw [hE] at hv
      obtain ⟨u, hu, rfl⟩ := List.mem_map.mp hv
      refine ⟨rfl, ?_⟩
      intro hnone
      have hnone' : dlookup ts u.user_id = none := hnone
      constructor
      · show (dlookup ts u.user_id).map ShoeRow.product_name = none
        rw [hnone']
        rfl
      · show (dlookup ts u.user_id).map ShoeRow.product_variant_id = none
        rw [hnone']
        rfl

/-- C8: for levels 3, 4 and 5, the enrichment storage (including one whose
every query raises, and one that returns nothing) never changes which users
are extracted or remain, never aborts the step, and every extracted user
keeps its tier tag; a user the enrichment dict does not cover simply gets
`none` in `top_target_shoe` and `target_variantID`. -/
theorem enrichment_failure_resilience (odb wdb : IdQuery) (fb fb' : FallbackDB)
    (rem3 rem4 rem5 : List User) :
    ((extract_level_3_no_offers odb fb rem3).1.map User.user_id
        = (extract_level_3_no_offers odb fb' rem3).1.map User.user_id
      ∧ (extract_level_3_no_offers odb fb rem3).2 = (extract_level_3_no_offers odb fb' rem3).2
      ∧ ∀ v ∈ (extract_level_3_no_offers odb fb rem3).1,
          v.new_user_level = some 3
          ∧ (dlookup (get_top_target_shoe_for_users fb
                ((extract_level_3_no_offers odb fb rem3).1.map User.user_id)).target_shoes
              v.user_id = none → v.top_target_shoe = none ∧ v.target_variantID = none))
    ∧ ((extract_level_4_no_wishlist wdb fb rem4).1.map User.user_id
        = (extract_level_4_no_wishlist wdb fb' rem4).1.map User.user_id
      ∧ (extract_level_4_no_wishlist wdb fb rem4).2
          = (extract_level_4_no_wishlist wdb fb' rem4).2
      ∧ ∀ v ∈ (extract_level_4_no_wishlist wdb fb rem4).1,
          v.new_user_level = some 4
          ∧ (dlookup (get_top_target_shoe_for_users fb
                ((extract_level_4_no_wishlist wdb fb rem4).1.map User.user_id)).target_shoes
              v.user_id = none → v.top_target_shoe = none ∧ v.target_variantID = none))
    ∧ ((extract_level_5_new_stars fb rem5).1.map User.user_id
        = (extract_level_5_new_stars fb' rem5).1.map User.user_id
      ∧ (extract_level_5_new_stars fb rem5).2 = (extract_level_5_new_stars fb' rem5).2
      ∧ ∀ v ∈ (extract_level_5_new_stars fb rem5).1,
          v.new_user_level = some 5
          ∧ (dlookup (get_top_target_shoe_for_users fb
                ((extract_level_5_new_stars fb rem5).1.map User.user_id)).target_shoes
              v.user_id = none → v.top_target_shoe = none ∧ v.target_variantID = none)) :=
  ⟨extract_level_3_enrichment odb fb fb' rem3, extract_level_4_enrichment wdb fb fb' rem4,
   extract_level_5_enrichment fb fb' rem5⟩

/-- Witness for C8 at a concrete input, pitting an always-raising enrichment
storage against a populated one. -/
theorem enrichment_failure_resilience_witness :
    ((extract_level_3_no_offers emptyOkDb.offer allErrFallback [{ user_id := "u1" }]).1.map
          User.user_id
        = (extract_level_3_no_offers emptyOkDb.offer c5Fb [{ user_id := "u1" }]).1.map
          User.user_id
      ∧ (extract_level_3_no_offers emptyOkDb.offer allErrFallback [{ user_id := "u1" }]).2
          = (extract_level_3_no_offers emptyOkDb.offer c5Fb [{ user_id := "u1" }]).2
      ∧ ∀ v ∈ (extract_level_3_no_offers emptyOkDb.offer allErrFallback
            [{ user_id := "u1" }]).1,
          v.new_user_level = some 3
          ∧ (dlookup (get_top_target_shoe_for_users allErrFallback
                ((extract_level_3_no_offers emptyOkDb.offer allErrFallback
                  [{ user_id := "u1" }]).1.map User.user_id)).target_shoes
              v.user_id = none → v.top_target_shoe = none ∧ v.target_variantID = none))
    ∧ ((extract_level_4_no_wishlist emptyOkDb.wishlist allErrFallback
            [{ user_id := "u1" }]).1.map User.user_id
        = (extract_level_4_no_wishlist emptyOkDb.wishlist c5Fb [{ user_id := "u1" }]).1.map
          User.user_id
      ∧ (extract_level_4_no_wishlist emptyOkDb.wishlist allErrFallback
            [{ user_id := "u1" }]).2
          = (extract_level_4_no_wishlist emptyOkDb.wishlist c5Fb [{ user_id := "u1" }]).2
      ∧ ∀ v ∈ (extract_level_4_no_wishlist emptyOkDb.wishlist allErrFallback
            [{ user_id := "u1" }]).1,
          v.new_user_level = some 4
          ∧ (dlookup (get_top_target_shoe_for_users allErrFallback
                ((extract_level_4_no_wishlist emptyOkDb.wishlist allErrFallback
                  [{ user_id := "u1" }]).1.map User.user_id)).target_shoes
              v.user_id = none → v.top_target_shoe = none ∧ v.target_variantID = none))
    ∧ ((extract_level_5_new_stars allErrFallback [{ user_id := "u1" }]).1.map User.user_id
        = (extract_level_5_new_stars c5Fb [{ user_id := "u1" }]).1.map User.user_id
      ∧ (extract_level_5_new_stars allErrFallback [{ user_id := "u1" }]).2
          = (extract_level_5_new_stars c5Fb [{ user_id := "u1" }]).2
      ∧ ∀ v ∈ (extract_level_5_new_stars allErrFallback [{ user_id := "u1" }]).1,
          v.new_user_level = some 5
          ∧ (dlookup (get_top_target_shoe_for_users allErrFallback
                ((extract_level_5_new_stars allErrFallback
                  [{ user_id := "u1" }]).1.map User.user_id)).target_shoes
              v.user_id = none → v.top_target_shoe = none ∧ v.target_variantID = none)) :=
  enrichment_failure_resilience emptyOkDb.offer emptyOkDb.wishlist allErrFallback c5Fb
    [{ user_id := "u1" }] [{ user_id := "u1" }] [{ user_id := "u1" }]

/-- C9: in a non-dry run whose integrity validation fails, `main` still
returns the completed outcome whose file list is `main_generate_files` of
the extraction results — computed from the extraction results alone, before
validation runs and independent of its verdict — and signals non-success
with exit code 1. -/
theorem validation_failure_preserves_files (db : WaterfallDB)
    (fetch : Except String (List User)) (ts : String)
    (hbase : (get_new_users_in_window fetch).isEmpty = false)
    (hval : validate_waterfall_integrity
        (run_waterfall db (get_new_users_in_window fetch)) = false) :
    main_model db fetch false ts
      = RunOutcome.completed (run_waterfall db (get_new_users_in_window fetch))
          (main_generate_files (run_waterfall db (get_new_users_in_window fetch)) ts)
          false 1 := by
  have hcond : ¬((get_new_users_in_window fetch).isEmpty = true) := by simp [hbase]
  have hmain : main_model db fetch false ts
      = RunOutcome.completed (run_waterfall db (get_new_users_in_window fetch))
          (main_generate_files (run_waterfall db (get_new_users_in_window fetch)) ts)
          (validate_waterfall_integrity (run_waterfall db (get_new_users_in_window fetch)))
          (if validate_waterfall_integrity (run_waterfall db (get_new_users_in_window fetch))
            then 0 else 1) := by
    rw [main_model, if_neg hcond]
    rfl
  rw [hmain, hval]
  rfl

/-- Witness for C9: a population containing a record with an empty user_id
breaks the coverage invariant, validation fails, and the completed outcome
still carries the full file list with exit code 1. -/
theorem validation_failure_preserves_files_witness :
    main_model closetErrDb (Except.ok [{ user_id := "" }]) false "t"
      = RunOutcome.completed (run_waterfall closetErrDb [{ user_id := "" }])
          (main_generate_files (run_waterfall closetErrDb [{ user_id := "" }]) "t")
          false 1 :=
  validation_failure_preserves_files closetErrDb (Except.ok [{ user_id := "" }]) "t"
    (by decide) (by decide)
